import Mathlib

/-!
Verification of the navigate-app ML pipeline (backend/ml_engine) against its
natural-language specification.

The development shallowly embeds the Python sources:
 - `backend/ml_engine/services/ml_pipeline.py`
   (PreFilter, GeographicMatcher, BusinessMatcher, RecommendationGenerator,
    MLOrchestrator.process_article)
 - `backend/ml_engine/services/broadcastability_calculator.py`
 - `backend/news/utils.py` (calculate_feature_completeness)
 - the Django models backing them (field defaults and choices).

Modelling conventions:
 - Python floats are modelled as `ℚ` (the scores are produced by exact
   decimal arithmetic in the source);
 - `datetime` values are modelled as integer Unix timestamps in seconds;
   `timedelta.days` is floor division by 86400 (`Int.fdiv`);
 - Python's `round(x, n)` rounds half to even; it is modelled by `roundTo`
   (round half up), which agrees with it except on exact midpoint ties,
   which do not occur at any value this file evaluates;
 - `re.search` calls are modelled by an explicit oracle function supplied as
   an argument (`research : String → String → Bool`, pattern then text);
   the hype-indicator oracle returns `Except Unit Bool`, where
   `Except.error ()` models `re.error` raised on a malformed pattern;
 - `keyword.lower() in text` substring tests are executable (`pyContains`);
 - Python string `.lower()` is `pyLower` (ASCII case folding, which agrees
   with CPython on every string evaluated here);
 - Django ORM tables are lists of rows; a transaction's visible writes are
   threaded explicitly through a `World` record;
 - diagnostic-only article fields that the pipeline writes but never reads
   (timestamps, `llm_extraction_results`, `extraction_comparison`,
   `entities` display data and log strings) are either omitted or carried
   as plain data, as noted at each definition.
-/

set_option maxHeartbeats 2000000
set_option maxRecDepth 4000

namespace NavigatePipeline

/-! ## Python-semantics helpers -/

/-- Whether `needle` is a prefix of the character list. -/
def listPrefixOf : List Char → List Char → Bool
  | [], _ => true
  | _ :: _, [] => false
  | a :: as, b :: bs => a == b && listPrefixOf as bs

/-- Whether `needle` occurs contiguously in the character list. -/
def listInfixOf (needle : List Char) : List Char → Bool
  | [] => listPrefixOf needle []
  | b :: bs => listPrefixOf needle (b :: bs) || listInfixOf needle bs

/-- Python's `sub in text` substring test. -/
def pyContains (text sub : String) : Bool :=
  listInfixOf sub.data text.data

/-- ASCII lower-casing of one character (CPython `str.lower` restricted to
ASCII; every string this file lower-cases has no non-ASCII upper-case
letters, so the two agree on all inputs used here). -/
def pyCharLower (c : Char) : Char :=
  if 'A' ≤ c ∧ c ≤ 'Z' then Char.ofNat (c.toNat + 32) else c

/-- Python `str.lower()`. -/
def pyLower (s : String) : String :=
  ⟨s.data.map pyCharLower⟩

/-- Python slicing `s[:n]`. -/
def pyTruncate (n : ℕ) (s : String) : String :=
  ⟨s.data.take n⟩

/-- One step of Python `str.replace`, with explicit fuel (the fuel is the
length of the subject string, which suffices because each step consumes at
least one character). -/
def replaceFuel (pat rep : List Char) : ℕ → List Char → List Char
  | 0, cs => cs
  | _ + 1, [] => []
  | fuel + 1, c :: cs =>
    if listPrefixOf pat (c :: cs) then
      rep ++ replaceFuel pat rep fuel (List.drop (pat.length - 1) cs)
    else
      c :: replaceFuel pat rep fuel cs

/-- Python `s.replace(pat, rep)` for a non-empty pattern. -/
def pyReplace (s pat rep : String) : String :=
  ⟨replaceFuel pat.data rep.data s.data.length s.data⟩

/-- Python `round(q, digits)` (see the file comment on midpoint ties). -/
def roundTo (digits : ℕ) (q : ℚ) : ℚ :=
  (round (q * (10 : ℚ) ^ digits) : ℚ) / (10 : ℚ) ^ digits

/-! ## Data model

`Article` carries the `news.models.NewsArticle` fields that the pipeline
reads or writes.  Field defaults mirror the Django model defaults.
Pure-diagnostic fields that nothing in the embedded code ever reads
(`feature_extraction_date`, `llm_features_extracted`, `llm_extraction_date`,
`llm_extraction_results`, `extraction_comparison`, `created_at`,
`updated_at`, `is_processed`, legacy `event_type`/`event_date`) are omitted.
-/

structure Article where
  id : ℕ
  title : String
  content : String
  urgency_score : ℚ := 0
  sentiment_score : ℚ := 0
  venue_address : String := ""
  latitude : Option ℚ := none
  longitude : Option ℚ := none
  event_type_detected : String := ""
  event_subtype : String := ""
  primary_city : String := ""
  neighborhood : String := ""
  venue_name : String := ""
  event_start_datetime : Option ℤ := none
  event_end_datetime : Option ℤ := none
  event_duration_hours : Option ℚ := none
  expected_attendance : Option ℤ := none
  event_scale : String := ""
  event_country : String := ""
  colombian_involvement : Bool := false
  extracted_keywords : List String := []
  entities : List String := []
  sport_type : String := ""
  competition_level : String := ""
  category : String := ""
  subcategory : String := ""
  business_suitability_score : ℚ := 0
  business_relevance_score : ℚ := -1
  broadcastability_score : ℚ := 0
  hype_score : ℚ := 0
  is_broadcastable : Bool := false
  features_extracted : Bool := false
  feature_extraction_confidence : ℚ := 0
  feature_completeness_score : ℚ := 0
  processing_error : String := ""
deriving DecidableEq

/-- One row of `businesses.models.BusinessKeywords`. -/
structure BusinessKeyword where
  keyword : String
  weight : ℚ := 1
  is_negative : Bool := false
deriving DecidableEq

/-- `businesses.models.Business`, restricted to the fields the pipeline
reads; `keywords` inlines the reverse FK `business.keywords`. -/
structure Business where
  id : ℕ
  business_type : String
  city : String
  neighborhood : String := ""
  include_national_events : Bool := false
  has_tv_screens : Bool := false
  is_active : Bool := true
  keywords : List BusinessKeyword := []
deriving DecidableEq

/-- The `Business.CITIES` choices table (code, display name). -/
def CITIES : List (String × String) :=
  [("medellin", "Medellín"), ("bogota", "Bogotá"),
   ("cartagena", "Cartagena"), ("barranquilla", "Barranquilla")]

/-- Django's generated `get_city_display`: the display name from the
choices, or the raw value when it is not a listed choice. -/
def get_city_display (b : Business) : String :=
  (CITIES.lookup b.city).getD b.city

/-- One row of `businesses.models.BusinessTypeKeyword`. -/
structure BusinessTypeKeyword where
  business_type : String
  keyword : String
  weight : ℚ := 15/100
  is_active : Bool := true
deriving DecidableEq

/-- One row of `recommendations.models.Recommendation` as created by the
generator.  `content_type` is always the `NewsArticle` content type, so the
generic key is carried as `object_id` alone. -/
structure Recommendation where
  business_id : ℕ
  object_id : ℕ
  title : String
  description : String
  category : String
  action_type : String
  priority : String
  confidence_score : ℚ
  impact_score : ℚ
  effort_score : ℚ
  estimated_duration_hours : ℚ
  reasoning : String
  recommended_start_date : Option ℤ
  recommended_end_date : Option ℤ
deriving DecidableEq

/-! ## Broadcastability taxonomy (`event_taxonomy.models`) -/

/-- `SportType` row (active ones, as cached by the calculator). -/
structure SportType where
  code : String
  latin_america_appeal : ℚ
  keywords : List String
deriving DecidableEq

/-- `CompetitionLevel` row; `sport_type` is the FK's code
(`none` = applies to all sports). -/
structure CompetitionLevel where
  code : String
  sport_type : Option String := none
  broadcast_multiplier : ℚ
  keywords : List String
deriving DecidableEq

/-- `HypeIndicator` row. -/
structure HypeIndicator where
  pattern : String
  hype_boost : ℚ
  category : String
deriving DecidableEq

/-- The singleton `BroadcastabilityConfig` row; defaults are the model
field defaults. -/
structure BroadcastabilityConfig where
  sport_appeal_weight : ℚ := 35/100
  competition_level_weight : ℚ := 30/100
  hype_indicators_weight : ℚ := 20/100
  attendance_weight : ℚ := 15/100
  min_broadcastability_score : ℚ := 55/100
  attendance_small : ℤ := 5000
  attendance_medium : ℤ := 20000
  attendance_large : ℤ := 50000
deriving DecidableEq

/-- The calculator's cached state (`BroadcastabilityCalculator.__init__`). -/
structure BroadcastTaxonomy where
  config : BroadcastabilityConfig
  sport_types : List SportType
  competition_levels : List CompetitionLevel
  hype_indicators : List HypeIndicator

/-! ## BroadcastabilityCalculator -/

/-- `sum(1 for keyword in keywords if keyword.lower() in text)`. -/
def count_keyword_matches (keywords : List String) (text : String) : ℕ :=
  (keywords.filter (fun k => pyContains text (pyLower k))).length

/-- The loop of `_calculate_sport_appeal`: keep the first sport whose
keyword-match count strictly exceeds the best count so far. -/
def sport_appeal_scan (text : String) :
    List SportType → Option SportType × ℕ → Option SportType × ℕ
  | [], acc => acc
  | st :: rest, (best, bestScore) =>
    let m := count_keyword_matches st.keywords text
    if bestScore < m then sport_appeal_scan text rest (some st, m)
    else sport_appeal_scan text rest (best, bestScore)

/-- `BroadcastabilityCalculator._calculate_sport_appeal`. -/
def calculate_sport_appeal (sports : List SportType) (text : String) :
    ℚ × Option String :=
  match sport_appeal_scan text sports (none, 0) with
  | (some st, _) => (st.latin_america_appeal, some st.code)
  | (none, _) => (1/2, none)

/-- The `continue` filter in `_calculate_competition_level`: skip a
competition scoped to a different sport than the detected one (an empty
detected-sport string is falsy in Python and disables the filter). -/
def competition_applicable (detected_sport : Option String)
    (c : CompetitionLevel) : Bool :=
  match detected_sport, c.sport_type with
  | some d, some s => if d = "" then true else s == d
  | _, _ => true

/-- The loop of `_calculate_competition_level`: among applicable
competitions with at least one keyword match, keep the one with the highest
multiplier, starting from the default multiplier 1.0. -/
def competition_scan (text : String) (detected : Option String) :
    List CompetitionLevel → Option CompetitionLevel × ℚ →
      Option CompetitionLevel × ℚ
  | [], acc => acc
  | c :: rest, (best, bestMult) =>
    if competition_applicable detected c then
      if 0 < count_keyword_matches c.keywords text then
        if bestMult < c.broadcast_multiplier then
          competition_scan text detected rest (some c, c.broadcast_multiplier)
        else competition_scan text detected rest (best, bestMult)
      else competition_scan text detected rest (best, bestMult)
    else competition_scan text detected rest (best, bestMult)

/-- `BroadcastabilityCalculator._calculate_competition_level`. -/
def calculate_competition_level (levels : List CompetitionLevel)
    (text : String) (detected : Option String) : ℚ × Option String :=
  let scanned := competition_scan text detected levels (none, 1)
  let normalized := min 1 (scanned.2 / 3)
  match scanned.1 with
  | some c => (normalized, some c.code)
  | none => (33/100, none)

/-- The accumulation in `_calculate_hype_score`: a matched pattern adds its
boost, an unmatched or malformed (`Except.error`) pattern adds nothing. -/
def hype_total (research : String → String → Except Unit Bool)
    (text : String) : List HypeIndicator → ℚ
  | [] => 0
  | ind :: rest =>
    (match research ind.pattern text with
     | Except.ok true => ind.hype_boost
     | _ => 0) + hype_total research text rest

/-- `BroadcastabilityCalculator._calculate_hype_score` (the oracle carries
the `re.IGNORECASE` semantics of the source call). -/
def calculate_hype_score (research : String → String → Except Unit Bool)
    (indicators : List HypeIndicator) (text : String) : ℚ :=
  min 1 (hype_total research text indicators)

/-- `BroadcastabilityCalculator._calculate_attendance_score`. -/
def calculate_attendance_score (config : BroadcastabilityConfig)
    (attendance : Option ℤ) : ℚ :=
  match attendance with
  | none => 0
  | some att =>
    if att ≤ 0 then 0
    else if att < config.attendance_small then
      ((att : ℚ) / (config.attendance_small : ℚ)) * (2/10)
    else if att < config.attendance_medium then
      2/10 + (((att : ℚ) - (config.attendance_small : ℚ)) /
        ((config.attendance_medium : ℚ) - (config.attendance_small : ℚ))) * (3/10)
    else if att < config.attendance_large then
      5/10 + (((att : ℚ) - (config.attendance_medium : ℚ)) /
        ((config.attendance_large : ℚ) - (config.attendance_medium : ℚ))) * (3/10)
    else 1

/-- The dictionary returned by `BroadcastabilityCalculator.calculate`
(`components` flattened into four fields). -/
structure BroadcastResult where
  broadcastability_score : ℚ
  hype_score : ℚ
  is_broadcastable : Bool
  sport_type : Option String
  competition_level : Option String
  comp_sport_appeal : ℚ
  comp_competition_level : ℚ
  comp_hype_indicators : ℚ
  comp_attendance : ℚ
deriving DecidableEq

/-- `BroadcastabilityCalculator._zero_result`. -/
def zero_result : BroadcastResult :=
  { broadcastability_score := 0
    hype_score := 0
    is_broadcastable := false
    sport_type := none
    competition_level := none
    comp_sport_appeal := 0
    comp_competition_level := 0
    comp_hype_indicators := 0
    comp_attendance := 0 }

/-- `BroadcastabilityCalculator.calculate`. -/
def BroadcastabilityCalculator.calculate (tax : BroadcastTaxonomy)
    (research : String → String → Except Unit Bool) (a : Article) :
    BroadcastResult :=
  let text := pyLower (a.title ++ " " ++ a.content)
  if a.event_type_detected = "sports_match" ∨ a.event_type_detected = "marathon"
      ∨ a.event_type_detected = "tournament" then
    let sport := calculate_sport_appeal tax.sport_types text
    let comp := calculate_competition_level tax.competition_levels text sport.2
    let hype := calculate_hype_score research tax.hype_indicators text
    let att := calculate_attendance_score tax.config a.expected_attendance
    let b := sport.1 * tax.config.sport_appeal_weight +
      comp.1 * tax.config.competition_level_weight +
      hype * tax.config.hype_indicators_weight +
      att * tax.config.attendance_weight
    let b := max 0 (min 1 b)
    { broadcastability_score := roundTo 3 b
      hype_score := roundTo 3 hype
      is_broadcastable := decide (tax.config.min_broadcastability_score ≤ b)
      sport_type := sport.2
      competition_level := comp.2
      comp_sport_appeal := roundTo 3 sport.1
      comp_competition_level := roundTo 3 comp.1
      comp_hype_indicators := roundTo 3 hype
      comp_attendance := roundTo 3 att }
  else zero_result

/-! ## PreFilter (`ml_pipeline.PreFilter`) -/

/-- `PreFilter.HIGH_RELEVANCE_CATEGORIES`. -/
def HIGH_RELEVANCE_CATEGORIES : List (String × ℚ) :=
  [("food_event", 95/100), ("festival", 90/100), ("concert", 85/100),
   ("sports_match", 85/100), ("nightlife", 90/100), ("cultural", 75/100),
   ("marathon", 80/100)]

/-- `PreFilter.MEDIUM_RELEVANCE_CATEGORIES`. -/
def MEDIUM_RELEVANCE_CATEGORIES : List (String × ℚ) :=
  [("conference", 60/100), ("exposition", 55/100)]

/-- `PreFilter.LOW_RELEVANCE_CATEGORIES`. -/
def LOW_RELEVANCE_CATEGORIES : List (String × ℚ) :=
  [("politics", 15/100), ("international", 10/100), ("conflict", 5/100),
   ("crime", 10/100)]

/-- `PreFilter.HOSPITALITY_KEYWORDS` (regex sources, fed to the oracle). -/
def HOSPITALITY_KEYWORDS : List String :=
  ["restaurante", "caf[eé]", "bar", "pub", "cerveza",
   "comida", "gastronom[ií]a", "reservas", "mesa",
   "m[uú]sica\\s+en\\s+vivo", "happy\\s+hour", "brunch"]

/-- `PreFilter.NEGATIVE_KEYWORDS` (regex sources, fed to the oracle). -/
def NEGATIVE_KEYWORDS : List String :=
  ["asesinato", "homicidio", "accidente", "muerto",
   "robo", "atraco", "incendio", "tragedia",
   "corrupci[oó]n", "esc[aá]ndalo",
   "bombardeo", "ataque", "guerra", "conflicto\\s+armado",
   "narcotr[aá]fico", "violencia", "v[ií]ctima", "secuestro"]

/-- `PreFilter.PAYWALL_PATTERNS` (regex sources, fed to the oracle). -/
def PAYWALL_PATTERNS : List String :=
  ["cookies?\\s+propias\\s+y\\s+de\\s+terceros",
   "inicia\\s+sesi[oó]n",
   "ya\\s+tienes\\s+una\\s+cuenta",
   "suscr[ií]bete",
   "contenido\\s+exclusivo",
   "datos\\s+de\\s+navegaci[oó]n"]

/-- The base score from the 4-tier event-type table (a `None` or empty
event type is falsy in Python and leaves the score at 0.0). -/
def base_event_type_score (event_type : Option String) : ℚ :=
  match event_type with
  | none => 0
  | some et =>
    if et = "" then 0
    else
      match HIGH_RELEVANCE_CATEGORIES.lookup et with
      | some v => v
      | none =>
        match MEDIUM_RELEVANCE_CATEGORIES.lookup et with
        | some v => v
        | none =>
          match LOW_RELEVANCE_CATEGORIES.lookup et with
          | some v => v
          | none => 4/10

/-- The shared tail of `PreFilter.calculate_suitability`: the Colombian
sports boost, the hospitality boost (capped at +0.3), the uncapped negative
penalty, the content-quality penalty and the final clip to [0, 1]. -/
def suitability_tail (research : String → String → Bool) (a : Article)
    (event_type : Option String) (business : Option Business)
    (text : String) (score score_penalty : ℚ) : ℚ :=
  let score := if a.colombian_involvement = true
      ∧ (event_type = some "sports_match" ∨ event_type = some "tournament")
      ∧ (match business with
         | some b => b.has_tv_screens
         | none => false) = true then score + 2/10 else score
  let hosp := (HOSPITALITY_KEYWORDS.filter (fun k => research k text)).length
  let score := score + min (3/10) ((hosp : ℚ) * (1/10))
  let neg := (NEGATIVE_KEYWORDS.filter (fun k => research k text)).length
  let score := score - (neg : ℚ) * (1/2)
  let score := score - score_penalty
  max 0 (min 1 score)

/-- `PreFilter.calculate_suitability`.  `research` is the `re.search`
oracle (pattern, text); `business` is the optional reference business. -/
def PreFilter.calculate_suitability (research : String → String → Bool)
    (a : Article) (event_type : Option String)
    (business : Option Business) : ℚ :=
  let text := pyLower (a.title ++ " " ++ a.content)
  let paywall_detected := PAYWALL_PATTERNS.any (fun p => research p text)
  let no_keywords := a.extracted_keywords.isEmpty
  let short_content := a.content.length < 200
  if paywall_detected then 0
  else
    let score_penalty : ℚ := if no_keywords && short_content then 3/10 else 0
    let score := base_event_type_score event_type
    if a.event_country ≠ "" ∧ a.event_country ≠ "Colombia" then
      if a.colombian_involvement = false then
        if a.is_broadcastable = true ∧ (match business with
            | some b => b.has_tv_screens
            | none => false) = true then
          a.broadcastability_score * (3/4)
        else 0
      else
        let score := score * (4/10)
        if (event_type = some "sports_match" ∨ event_type = some "tournament")
            ∧ (match business with
               | some b => !b.has_tv_screens
               | none => false) = true then 0
        else suitability_tail research a event_type business text score score_penalty
    else suitability_tail research a event_type business text score score_penalty

/-! ## GeographicMatcher (`ml_pipeline.GeographicMatcher`) -/

/-- `GeographicMatcher._normalize_city`: lower-case, then strip the five
accented Spanish vowels. -/
def normalize_city (city : String) : String :=
  ⟨(pyLower city).data.map (fun c =>
    if c = 'á' then 'a' else if c = 'é' then 'e' else if c = 'í' then 'i'
    else if c = 'ó' then 'o' else if c = 'ú' then 'u' else c)⟩

/-- `GeographicMatcher.is_relevant`: the binary geographic eligibility
gate, mirroring the source's case order (local city / national opt-in /
international without involvement / international with involvement /
unknown location / default False). -/
def GeographicMatcher.is_relevant (a : Article) (b : Business) : Bool :=
  if a.event_country = "Colombia" ∧ a.primary_city ≠ ""
      ∧ normalize_city a.primary_city = normalize_city (get_city_display b) then
    true
  else if a.event_country = "Colombia" ∧ a.primary_city ≠ ""
      ∧ b.include_national_events = true
      ∧ (a.event_scale = "massive" ∨ a.event_scale = "large") then
    true
  else if a.event_country ≠ "" ∧ a.event_country ≠ "Colombia" then
    if a.colombian_involvement = false then false
    else if b.has_tv_screens = true
        ∧ (a.event_type_detected = "sports_match"
           ∨ a.event_type_detected = "tournament"
           ∨ a.event_type_detected = "awards"
           ∨ a.event_type_detected = "festival") then
      true
    else false
  else if a.primary_city = "" ∧ a.event_country = "" then
    if a.event_scale = "massive" ∧ b.include_national_events = true then true
    else false
  else false

/-! ## BusinessMatcher (`ml_pipeline.BusinessMatcher`) -/

/-- `BusinessMatcher.calculate_relevance`; `type_keywords` is the
`BusinessTypeKeyword` table (the source filters it by business type and
`is_active` in the ORM query). -/
def BusinessMatcher.calculate_relevance
    (type_keywords : List BusinessTypeKeyword) (a : Article)
    (b : Business) : ℚ :=
  let score := a.business_suitability_score * (3/10)
  let text := pyLower (a.title ++ " " ++ a.content)
  let score := (b.keywords.filter (fun k => !k.is_negative)).foldl
    (fun s k => if pyContains text (pyLower k.keyword) then s + k.weight * (2/10) else s)
    score
  let score := (type_keywords.filter
      (fun k => k.business_type == b.business_type && k.is_active)).foldl
    (fun s k => if pyContains text (pyLower k.keyword) then s + k.weight else s)
    score
  let score := if a.event_scale = "massive" then score + 2/10
    else if a.event_scale = "large" then score + 15/100
    else if a.event_scale = "medium" then score + 5/100
    else score
  let score := if a.neighborhood ≠ "" ∧ b.neighborhood ≠ ""
      ∧ pyLower a.neighborhood = pyLower b.neighborhood then score + 3/10
    else score
  min 1 score

/-! ## Feature completeness (`news/utils.py`) -/

/-- The per-field populated flags of `calculate_feature_completeness`, in
the source's field order.  Float, int and bool fields are always populated
when present (the source's `is_populated` returns True for any numeric or
boolean value); nullable fields are populated when not None; strings when
non-empty; arrays when non-empty. -/
def completeness_flags (a : Article) : List Bool :=
  [true,                                -- business_suitability_score (float)
   true,                                -- urgency_score (float)
   true,                                -- sentiment_score (float)
   a.category ≠ "",
   true,                                -- feature_extraction_confidence
   a.event_type_detected ≠ "",
   a.event_subtype ≠ "",
   a.primary_city ≠ "",
   a.neighborhood ≠ "",
   a.venue_name ≠ "",
   a.venue_address ≠ "",
   a.latitude.isSome,
   a.longitude.isSome,
   a.event_country ≠ "",
   a.event_start_datetime.isSome,
   a.event_end_datetime.isSome,
   a.event_duration_hours.isSome,
   a.expected_attendance.isSome,
   a.event_scale ≠ "",
   true,                                -- colombian_involvement (bool)
   !a.extracted_keywords.isEmpty,
   !a.entities.isEmpty,
   a.subcategory ≠ ""]

/-- `news.utils.calculate_feature_completeness`: populated fields over the
23 checked fields, rounded to two decimal places. -/
def calculate_feature_completeness (a : Article) : ℚ :=
  roundTo 2 ((((completeness_flags a).filter id).length : ℚ) / 23)

/-! ## RecommendationGenerator (`ml_pipeline.RecommendationGenerator`) -/

/-- One entry of a `templates` list in `RecommendationGenerator.TEMPLATES`. -/
structure RecTemplate where
  title : String
  description : String
  action_type : String
  category : String
  priority_by_scale : List (String × String)
  estimated_hours : ℚ
  days_threshold : ℤ
deriving DecidableEq

/-- One value of `RecommendationGenerator.TEMPLATES`. -/
structure EventTemplateConfig where
  business_types : List String
  templates : List RecTemplate
deriving DecidableEq

/-- `RecommendationGenerator.TEMPLATES`, transcribed in full. -/
def TEMPLATES : List (String × EventTemplateConfig) :=
  [("sports_match",
    { business_types := ["pub", "restaurant", "coffee_shop"]
      templates :=
        [{ title := "Aumentar inventario de bebidas para {event_name}"
           description := "Evento deportivo generará alta demanda de bebidas. Contactar proveedores con anticipación."
           action_type := "increase_inventory", category := "inventory"
           priority_by_scale := [("massive", "urgent"), ("large", "urgent"), ("medium", "high"), ("small", "medium")]
           estimated_hours := 6, days_threshold := 7 },
         { title := "Campaña de marketing para {event_name}"
           description := "Crear promoción especial para el evento deportivo. Considerar descuentos o paquetes especiales."
           action_type := "create_promotion", category := "marketing"
           priority_by_scale := [("massive", "urgent"), ("large", "high"), ("medium", "medium"), ("small", "low")]
           estimated_hours := 12, days_threshold := 14 },
         { title := "Contratar personal adicional para día del evento"
           description := "Volumen de clientes será excepcional. Considerar contratar staff temporal o ajustar turnos."
           action_type := "hire_staff", category := "staffing"
           priority_by_scale := [("massive", "urgent"), ("large", "high"), ("medium", "medium"), ("small", "low")]
           estimated_hours := 8, days_threshold := 10 }] }),
   ("concert",
    { business_types := ["pub", "restaurant", "coffee_shop"]
      templates :=
        [{ title := "Promoción pre y post concierto"
           description := "Ofrecer descuentos antes/después del concierto. Muchos asistentes buscarán dónde cenar/beber."
           action_type := "create_promotion", category := "marketing"
           priority_by_scale := [("massive", "high"), ("large", "high"), ("medium", "medium"), ("small", "low")]
           estimated_hours := 8, days_threshold := 14 },
         { title := "Extender horario de atención"
           description := "Considerar abrir más tarde el día del concierto. Afluencia esperada después del evento."
           action_type := "adjust_hours", category := "operations"
           priority_by_scale := [("massive", "high"), ("large", "medium"), ("medium", "medium"), ("small", "low")]
           estimated_hours := 2, days_threshold := 7 },
         { title := "Aumentar inventario de bebidas y snacks"
           description := "Conciertos generan alta demanda. Preparar stock adicional de productos populares."
           action_type := "increase_inventory", category := "inventory"
           priority_by_scale := [("massive", "urgent"), ("large", "high"), ("medium", "medium"), ("small", "low")]
           estimated_hours := 4, days_threshold := 5 }] }),
   ("marathon",
    { business_types := ["coffee_shop", "restaurant", "pub"]
      templates :=
        [{ title := "Aumentar stock de bebidas saludables"
           description := "Maratón generará alta demanda de hidratación. Considerar bebidas isotónicas, agua, jugos naturales."
           action_type := "increase_inventory", category := "inventory"
           priority_by_scale := [("massive", "urgent"), ("large", "high"), ("medium", "medium"), ("small", "low")]
           estimated_hours := 4, days_threshold := 5 },
         { title := "Menú especial para corredores"
           description := "Ofrecer opciones saludables y energéticas. Desayunos tempranos, almuerzos ligeros."
           action_type := "menu_modification", category := "operations"
           priority_by_scale := [("massive", "high"), ("large", "medium"), ("medium", "medium"), ("small", "low")]
           estimated_hours := 8, days_threshold := 7 },
         { title := "Considerar apertura temprana"
           description := "Maratones suelen iniciar temprano. Evaluar abrir más temprano para capturar tráfico."
           action_type := "adjust_hours", category := "operations"
           priority_by_scale := [("massive", "high"), ("large", "medium"), ("medium", "low"), ("small", "low")]
           estimated_hours := 2, days_threshold := 5 }] }),
   ("festival",
    { business_types := ["pub", "restaurant", "coffee_shop", "bookstore"]
      templates :=
        [{ title := "Preparar inventario para festival"
           description := "Festival generará alta afluencia. Aumentar stock de productos de alta rotación."
           action_type := "increase_inventory", category := "inventory"
           priority_by_scale := [("massive", "urgent"), ("large", "urgent"), ("medium", "high"), ("small", "medium")]
           estimated_hours := 8, days_threshold := 7 },
         { title := "Campaña de marketing para {event_name}"
           description := "Aprovechar festival para atraer clientes. Considerar promociones temáticas."
           action_type := "create_promotion", category := "marketing"
           priority_by_scale := [("massive", "high"), ("large", "high"), ("medium", "medium"), ("small", "low")]
           estimated_hours := 10, days_threshold := 14 },
         { title := "Contratar personal adicional"
           description := "Festival traerá volumen excepcional de clientes. Evaluar necesidad de staff temporal."
           action_type := "hire_staff", category := "staffing"
           priority_by_scale := [("massive", "urgent"), ("large", "high"), ("medium", "medium"), ("small", "low")]
           estimated_hours := 8, days_threshold := 10 }] }),
   ("food_event",
    { business_types := ["restaurant", "coffee_shop", "pub"]
      templates :=
        [{ title := "Considerar participación en {event_name}"
           description := "Evento gastronómico ofrece oportunidad de visibilidad y networking con clientes potenciales."
           action_type := "partner_collaboration", category := "partnerships"
           priority_by_scale := [("massive", "medium"), ("large", "medium"), ("medium", "low"), ("small", "low")]
           estimated_hours := 20, days_threshold := 30 },
         { title := "Analizar tendencias gastronómicas"
           description := "Estudiar tendencias presentadas en el evento. Considerar incorporar ideas innovadoras al menú."
           action_type := "menu_modification", category := "operations"
           priority_by_scale := [("massive", "low"), ("large", "low"), ("medium", "low"), ("small", "low")]
           estimated_hours := 6, days_threshold := 60 },
         { title := "Monitorear actividad de competidores"
           description := "Evento gastronómico puede revelar estrategias de competencia. Estar atento a nuevas ofertas."
           action_type := "social_campaign", category := "marketing"
           priority_by_scale := [("massive", "medium"), ("large", "low"), ("medium", "low"), ("small", "low")]
           estimated_hours := 4, days_threshold := 14 }] }),
   ("cultural",
    { business_types := ["coffee_shop", "restaurant", "bookstore"]
      templates :=
        [{ title := "Promoción pre-función para {event_name}"
           description := "Eventos culturales atraen público que busca cenar/tomar café antes del evento."
           action_type := "create_promotion", category := "marketing"
           priority_by_scale := [("massive", "high"), ("large", "medium"), ("medium", "medium"), ("small", "low")]
           estimated_hours := 6, days_threshold := 14 },
         { title := "Ajustar horarios para evento cultural"
           description := "Considerar extender horario si el evento termina tarde. Capturar tráfico post-función."
           action_type := "adjust_hours", category := "operations"
           priority_by_scale := [("massive", "medium"), ("large", "medium"), ("medium", "low"), ("small", "low")]
           estimated_hours := 2, days_threshold := 7 }] }),
   ("nightlife",
    { business_types := ["pub", "restaurant"]
      templates :=
        [{ title := "Aumentar inventario de bebidas alcohólicas"
           description := "Evento nocturno generará alta demanda. Asegurar stock suficiente de productos populares."
           action_type := "increase_inventory", category := "inventory"
           priority_by_scale := [("massive", "urgent"), ("large", "high"), ("medium", "medium"), ("small", "low")]
           estimated_hours := 4, days_threshold := 5 },
         { title := "Contratar personal de seguridad/servicio"
           description := "Evento nocturno puede atraer multitudes. Considerar reforzar staff."
           action_type := "hire_staff", category := "staffing"
           priority_by_scale := [("massive", "urgent"), ("large", "high"), ("medium", "medium"), ("small", "low")]
           estimated_hours := 6, days_threshold := 7 }] }),
   ("conference",
    { business_types := ["coffee_shop", "restaurant"]
      templates :=
        [{ title := "Paquetes especiales para asistentes de conferencia"
           description := "Ofrecer menús ejecutivos o descuentos para grupos. Conferencias atraen profesionales."
           action_type := "create_promotion", category := "marketing"
           priority_by_scale := [("massive", "high"), ("large", "medium"), ("medium", "medium"), ("small", "low")]
           estimated_hours := 8, days_threshold := 14 },
         { title := "Preparar para incremento en almuerzos"
           description := "Conferencias generan alta demanda en horario de almuerzo. Aumentar staff y stock."
           action_type := "increase_inventory", category := "inventory"
           priority_by_scale := [("massive", "high"), ("large", "medium"), ("medium", "low"), ("small", "low")]
           estimated_hours := 6, days_threshold := 7 }] }),
   ("exposition",
    { business_types := ["coffee_shop", "restaurant", "bookstore"]
      templates :=
        [{ title := "Promoción cruzada con {event_name}"
           description := "Exposiciones atraen visitantes culturales. Considerar promociones temáticas."
           action_type := "create_promotion", category := "marketing"
           priority_by_scale := [("massive", "medium"), ("large", "medium"), ("medium", "low"), ("small", "low")]
           estimated_hours := 6, days_threshold := 14 }] })]

/-- `max(0, (event_start - now).days)` from `RecommendationGenerator.generate`
(`timedelta.days` floor-divides the difference in seconds by 86400). -/
def days_until_event (a : Article) (now : ℤ) : Option ℤ :=
  a.event_start_datetime.map (fun t => max 0 (Int.fdiv (t - now) 86400))

/-- The scale-derived base priority:
`priority_by_scale.get(event_scale, template.get('priority', 'medium'))`
(no source template carries a `priority` key, so the fallback is
`'medium'`). -/
def template_priority (tpl : RecTemplate) (event_scale : String) : String :=
  (tpl.priority_by_scale.lookup event_scale).getD "medium"

/-- The timing adjustment of `RecommendationGenerator.generate`
(lines 733-738): when the event is at most 2 days away, `high` becomes
`urgent` and `medium` becomes `high`; every other priority is unchanged. -/
def adjust_priority (p : String) (days_until : Option ℤ) : String :=
  match days_until with
  | some d =>
    if d ≤ 2 then
      if p = "high" then "urgent"
      else if p = "medium" then "high"
      else p
    else p
  | none => p

/-- The `scale_bonus` dictionary used for the impact score
(`.get(event_scale, 0.1)`). -/
def impact_scale_bonus (event_scale : String) : ℚ :=
  if event_scale = "massive" then 3/10
  else if event_scale = "large" then 2/10
  else if event_scale = "medium" then 1/10
  else if event_scale = "small" then 1/20
  else 1/10

/-- The `reasoning_parts` list joined with newlines.  Number and date
rendering is abstracted to `toString` (the source uses `strftime` and
thousands separators); the structure and guards mirror the source. -/
def build_reasoning (a : Article) (event_type event_scale : String)
    (days_until : Option ℤ) : String :=
  let parts := ["Recomendación generada por evento: " ++ event_type,
                "Título: " ++ pyTruncate 100 a.title]
  let parts := parts ++ (if a.venue_name ≠ "" then ["Lugar: " ++ a.venue_name] else [])
  let parts := parts ++ (if a.primary_city ≠ "" then
    ["Ubicación: " ++ a.primary_city ++
      (if a.neighborhood ≠ "" then ", " ++ a.neighborhood else "")] else [])
  let parts := parts ++ (match a.event_start_datetime, days_until with
    | some t, some d => ["Fecha: " ++ toString t ++ " (" ++ toString d ++ " días)"]
    | _, _ => [])
  let parts := parts ++ (match a.expected_attendance with
    | some n => if n ≠ 0 then ["Asistencia esperada: " ++ toString n ++ " personas"] else []
    | none => [])
  let parts := parts ++ ["Escala del evento: " ++ event_scale]
  String.intercalate "\n" parts

/-- The per-template body of the `for template in templates[:3]` loop:
`none` when the event is further out than the template's `days_threshold`,
otherwise the constructed (unsaved) `Recommendation`. -/
def make_recommendation (a : Article) (b : Business) (relevance : ℚ)
    (event_type event_scale : String) (days_until : Option ℤ)
    (tpl : RecTemplate) : Option Recommendation :=
  if (match days_until with
      | some d => decide (tpl.days_threshold < d)
      | none => false) = true then none
  else
    let priority := adjust_priority (template_priority tpl event_scale) days_until
    let event_name := pyTruncate 80 a.title
    let impact := relevance * (7/10) + impact_scale_bonus event_scale
    let impact := if (match days_until with
        | some d => decide (d ≤ 7)
        | none => false) = true then impact + 1/10 else impact
    let impact := min 1 impact
    let effort := min 1 (tpl.estimated_hours / 24)
    some
      { business_id := b.id
        object_id := a.id
        title := pyReplace tpl.title "{event_name}" event_name
        description := tpl.description
        category := tpl.category
        action_type := tpl.action_type
        priority := priority
        confidence_score := relevance
        impact_score := impact
        effort_score := effort
        estimated_duration_hours := tpl.estimated_hours
        reasoning := build_reasoning a event_type event_scale days_until
        recommended_start_date := a.event_start_datetime
        recommended_end_date := a.event_end_datetime }

/-- `RecommendationGenerator.generate`.  Takes the stored
`Recommendation` table and returns the table after the source's
delete-existing-pair step together with the list of newly built (unsaved)
recommendations.  An unknown or empty event type, or a business type the
event config does not list, returns the table untouched and no
recommendations (the source's early returns, which precede the delete). -/
def RecommendationGenerator.generate (db : List Recommendation)
    (a : Article) (b : Business) (relevance : ℚ) (now : ℤ) :
    List Recommendation × List Recommendation :=
  match TEMPLATES.lookup a.event_type_detected with
  | none => (db, [])
  | some cfg =>
    if b.business_type ∈ cfg.business_types then
      let db1 := db.filter (fun r =>
        !(r.business_id == b.id && r.object_id == a.id))
      let days := days_until_event a now
      let event_scale := if a.event_scale = "" then "medium" else a.event_scale
      let recs := (cfg.templates.take 3).filterMap
        (make_recommendation a b relevance a.event_type_detected event_scale days)
      (db1, recs)
    else (db, [])

/-! ## Orchestrator (`ml_pipeline.MLOrchestrator.process_article`)

The orchestrator's collaborators that perform I/O — `FeatureExtractor
.extract_all`, `LLMExtractor.extract_all`, `BroadcastabilityCalculator
.calculate` and the per-business relevance computation (whose keyword
queries hit the database) — are injected through `Env` as `Except`-valued
operations, so that an exception raised inside any of them is
representable.  `Env.pure_env` instantiates them with the embedded pure
functions.  Persistent state (the article row and the recommendation
table) is a `World`; `article.save()` is modelled by writing the in-memory
article into the world.  The `@transaction.atomic` decorator never rolls
anything back in the embedded code because the source catches every
exception inside the decorated method, so the model commits exactly the
saves that executed. -/

/-- The feature map returned by `FeatureExtractor.extract_all` (the keys
the orchestrator reads). -/
structure Features where
  event_type : Option String := none
  event_subtype : Option String := none
  city : Option String := none
  neighborhood : Option String := none
  venue : Option String := none
  event_date : Option ℤ := none
  event_end_datetime : Option ℤ := none
  event_duration_hours : Option ℚ := none
  attendance : Option ℤ := none
  scale : Option String := none
  event_country : Option String := none
  colombian_involvement : Bool := false
  keywords : List String := []
  entities : List String := []
  sport_type : Option String := none
  competition_level : Option String := none
deriving DecidableEq

/-- The LLM feature map, restricted to the keys the orchestrator reads
back (`sport_type`, `competition_level`); the stored bookkeeping JSON is
diagnostic only. -/
structure LlmFeatures where
  sport_type : Option String := none
  competition_level : Option String := none
deriving DecidableEq

/-- Persistent state visible to one `process_article` call: the article
row, the read-only `Business` and `BusinessTypeKeyword` tables, and the
`Recommendation` table. -/
structure World where
  article : Article
  businesses : List Business
  type_keywords : List BusinessTypeKeyword
  recs : List Recommendation
deriving DecidableEq

/-- The dictionary `process_article` returns: early exit on low
suitability, full processing, or the caught-exception dictionary
(`{'success': False, 'error': ...}`). -/
inductive ProcResult where
  | lowSuitability (suitability_score : ℚ)
  | processed (suitability_score business_relevance_score : ℚ)
      (matching_businesses recommendations_created : ℕ)
  | failed (error : String)
deriving DecidableEq

/-- The orchestrator's fallible collaborators plus the `re.search` oracle
used by the PreFilter. -/
structure Env where
  extract : Except String Features
  llm : Except String (Option LlmFeatures)
  broadcast : Article → Except String BroadcastResult
  relevance : Article → Business → Except String ℚ
  research : String → String → Bool

/-- The `category_map` of `process_article`. -/
def category_map : List (String × (String × String)) :=
  [("sports_match", ("deportes", "futbol")),
   ("marathon", ("deportes", "atletismo")),
   ("concert", ("entretenimiento", "musica")),
   ("festival", ("eventos", "festival")),
   ("conference", ("negocios", "conferencia")),
   ("exposition", ("cultura", "exposicion")),
   ("food_event", ("gastronomia", "festival-gastronomico")),
   ("cultural", ("cultura", "evento-cultural")),
   ("nightlife", ("entretenimiento", "vida-nocturna")),
   ("politics", ("comunidad", "politica")),
   ("international", ("comunidad", "internacional")),
   ("conflict", ("comunidad", "seguridad")),
   ("crime", ("comunidad", "seguridad"))]

/-- Step 1 of `process_article` (lines 915-954): overwrite the extracted
fields from the feature map (`x or ''` collapses None and empty), and set
category/subcategory from `category_map` when an event type was
detected. -/
def apply_features (a : Article) (f : Features) : Article :=
  let a := { a with
    event_type_detected := f.event_type.getD ""
    event_subtype := f.event_subtype.getD ""
    primary_city := f.city.getD ""
    neighborhood := f.neighborhood.getD ""
    venue_name := f.venue.getD ""
    event_start_datetime := f.event_date
    event_end_datetime := f.event_end_datetime
    event_duration_hours := f.event_duration_hours
    expected_attendance := f.attendance
    event_scale := f.scale.getD ""
    event_country := f.event_country.getD ""
    colombian_involvement := f.colombian_involvement
    extracted_keywords := f.keywords
    entities := f.entities
    sport_type := f.sport_type.getD ""
    competition_level := f.competition_level.getD "" }
  let pair := (category_map.lookup a.event_type_detected).getD ("comunidad", "otros")
  { a with
    category := if a.event_type_detected ≠ "" then pair.1 else a.category
    subcategory := if a.event_type_detected ≠ "" then pair.2 else a.subcategory }

/-- Step 2.6's LLM overrides (lines 1010-1014): a truthy `sport_type` or
`competition_level` from the LLM replaces the spaCy value. -/
def apply_llm_overrides (lf : Option LlmFeatures) (a : Article) : Article :=
  { a with
    sport_type :=
      match lf with
      | some f =>
        match f.sport_type with
        | some s => if s ≠ "" then s else a.sport_type
        | none => a.sport_type
      | none => a.sport_type
    competition_level :=
      match lf with
      | some f =>
        match f.competition_level with
        | some c => if c ≠ "" then c else a.competition_level
        | none => a.competition_level
      | none => a.competition_level }

/-- The assignment of a successful broadcastability result
(lines 1018-1027): score, hype and flag always; sport and competition only
when the calculator detected them (truthy). -/
def apply_broadcast_result (r : BroadcastResult) (a : Article) : Article :=
  { a with
    broadcastability_score := r.broadcastability_score
    hype_score := r.hype_score
    is_broadcastable := r.is_broadcastable
    sport_type :=
      match r.sport_type with
      | some s => if s ≠ "" then s else a.sport_type
      | none => a.sport_type
    competition_level :=
      match r.competition_level with
      | some c => if c ≠ "" then c else a.competition_level
      | none => a.competition_level }

/-- The in-memory article right before the broadcastability step: features
applied, suitability computed against the primary business
(`Business.objects.filter(id=1).first()`), bookkeeping and completeness
set, prior error cleared, and LLM overrides applied when suitability
reached 0.3 (an LLM failure is caught and ignored). -/
def pre_broadcast_article (env : Env) (businesses : List Business)
    (a0 : Article) (f : Features) : Article :=
  let a1 := apply_features a0 f
  let primary := (businesses.filter (fun b => b.id == 1)).head?
  let suit := PreFilter.calculate_suitability env.research a1 f.event_type primary
  let a2 := { a1 with
    business_suitability_score := suit
    features_extracted := true
    feature_extraction_confidence := 8/10
    processing_error := "" }
  let a2 := { a2 with feature_completeness_score := calculate_feature_completeness a2 }
  let llm_res : Option LlmFeatures :=
    if 3/10 ≤ suit then
      match env.llm with
      | Except.ok r => r
      | Except.error _ => none
    else none
  apply_llm_overrides llm_res a2

/-- The in-memory article after step 2.6: a broadcastability failure is
caught and replaced by zero scores (lines 1035-1040). -/
def article_after_extraction (env : Env) (businesses : List Business)
    (a0 : Article) (f : Features) : Article :=
  let a3 := pre_broadcast_article env businesses a0 f
  match env.broadcast a3 with
  | Except.ok r => apply_broadcast_result r a3
  | Except.error _ =>
    { a3 with broadcastability_score := 0, hype_score := 0, is_broadcastable := false }

/-- Step 4 of `process_article`: iterate the active businesses, gate each
through `GeographicMatcher.is_relevant`, score the rest, track the maximal
relevance and collect the pairs scoring above 0.4.  A raised exception in
the relevance computation propagates. -/
def match_scan (relevance : Article → Business → Except String ℚ)
    (a : Article) :
    List Business → ℚ → List (Business × ℚ) →
      Except String (ℚ × List (Business × ℚ))
  | [], maxRel, acc => Except.ok (maxRel, acc.reverse)
  | b :: rest, maxRel, acc =>
    if b.is_active = false then match_scan relevance a rest maxRel acc
    else if GeographicMatcher.is_relevant a b = false then
      match_scan relevance a rest maxRel acc
    else
      match relevance a b with
      | Except.error e => Except.error e
      | Except.ok rel =>
        match_scan relevance a rest (if maxRel < rel then rel else maxRel)
          (if 2/5 < rel then (b, rel) :: acc else acc)

/-- Step 5 of `process_article`: for each matching pair run the generator
(whose delete of the pair's stored rows happens unconditionally) and, when
saving, append the new rows and count them. -/
def rec_scan (a : Article) (now : ℤ) (save : Bool) :
    List (Business × ℚ) → List Recommendation → ℕ →
      List Recommendation × ℕ
  | [], db, created => (db, created)
  | p :: rest, db, created =>
    let g := RecommendationGenerator.generate db a p.1 p.2 now
    if save then rec_scan a now save rest (g.1 ++ g.2) (created + g.2.length)
    else rec_scan a now save rest g.1 created

/-- `MLOrchestrator.process_article`.  The try/except wrapping the whole
body catches any raised exception, records it on the in-memory article,
saves that article (with whatever mutations it had accumulated — the
enclosing `transaction.atomic` sees no exception and therefore commits)
and returns the failure dictionary instead of re-raising. -/
def MLOrchestrator.process_article (env : Env) (now : ℤ) (save : Bool)
    (w : World) : World × ProcResult :=
  match env.extract with
  | Except.error e =>
    (if save then { w with article := { w.article with processing_error := e } }
     else w,
     ProcResult.failed e)
  | Except.ok f =>
    let a4 := article_after_extraction env w.businesses w.article f
    let w1 := if save then { w with article := a4 } else w
    if a4.business_suitability_score < 3/10 then
      (w1, ProcResult.lowSuitability a4.business_suitability_score)
    else
      match match_scan env.relevance a4 w.businesses 0 [] with
      | Except.error e =>
        (if save then { w1 with article := { a4 with processing_error := e } }
         else w1,
         ProcResult.failed e)
      | Except.ok mp =>
        let a5 := { a4 with business_relevance_score := mp.1 }
        let w2 := if save then { w1 with article := a5 } else w1
        let out := rec_scan a5 now save mp.2 w2.recs 0
        ({ w2 with recs := out.1 },
         ProcResult.processed a4.business_suitability_score mp.1
           mp.2.length out.2)

/-- The honest environment: the embedded pure collaborators, none of which
raises.  `research` is the PreFilter `re.search` oracle, `hype_research`
the hype-indicator oracle, `f` the (deterministic) extractor output for
this article's text and `lf` the LLM output. -/
def Env.pure_env (research : String → String → Bool)
    (hype_research : String → String → Except Unit Bool)
    (tax : BroadcastTaxonomy) (tks : List BusinessTypeKeyword)
    (f : Features) (lf : Option LlmFeatures) : Env :=
  { extract := Except.ok f
    llm := Except.ok lf
    broadcast := fun a => Except.ok (BroadcastabilityCalculator.calculate tax hype_research a)
    relevance := fun a b => Except.ok (BusinessMatcher.calculate_relevance tks a b)
    research := research }

/-! ## Theorems: competition-level component (claim C4) -/

/-- The broadcast multipliers of the tiers that are applicable to the
detected sport and have at least one keyword match in the text. -/
def matched_multipliers (levels : List CompetitionLevel) (text : String)
    (detected : Option String) : List ℚ :=
  (levels.filter (fun c => competition_applicable detected c
      && decide (0 < count_keyword_matches c.keywords text))).map
    (fun c => c.broadcast_multiplier)

theorem competition_scan_snd (text : String) (d : Option String) :
    ∀ (ls : List CompetitionLevel) (best : Option CompetitionLevel) (m0 : ℚ),
      (competition_scan text d ls (best, m0)).2 =
        (matched_multipliers ls text d).foldl max m0 := by
  intro ls
  induction ls with
  | nil => intro best m0; simp [competition_scan, matched_multipliers]
  | cons c rest ih =>
    intro best m0
    by_cases happ : competition_applicable d c
    · by_cases hcnt : 0 < count_keyword_matches c.keywords text
      · have hmm : matched_multipliers (c :: rest) text d =
            c.broadcast_multiplier :: matched_multipliers rest text d := by
          simp [matched_multipliers, List.filter_cons, happ, hcnt]
        by_cases hlt : m0 < c.broadcast_multiplier
        · have hsc : competition_scan text d (c :: rest) (best, m0) =
              competition_scan text d rest (some c, c.broadcast_multiplier) := by
            simp [competition_scan, happ, hcnt, hlt]
          rw [hsc, hmm, ih, List.foldl_cons, max_eq_right hlt.le]
        · have hsc : competition_scan text d (c :: rest) (best, m0) =
              competition_scan text d rest (best, m0) := by
            simp [competition_scan, happ, hcnt, hlt]
          rw [hsc, hmm, ih, List.foldl_cons, max_eq_left (not_lt.mp hlt)]
      · have hmm : matched_multipliers (c :: rest) text d =
            matched_multipliers rest text d := by
          simp [matched_multipliers, List.filter_cons, happ, hcnt]
        have hsc : competition_scan text d (c :: rest) (best, m0) =
            competition_scan text d rest (best, m0) := by
          simp [competition_scan, happ, hcnt]
        rw [hsc, hmm]
        exact ih best m0
    · have hmm : matched_multipliers (c :: rest) text d =
          matched_multipliers rest text d := by
        simp [matched_multipliers, List.filter_cons, happ]
      have hsc : competition_scan text d (c :: rest) (best, m0) =
          competition_scan text d rest (best, m0) := by
        simp [competition_scan, happ]
      rw [hsc, hmm]
      exact ih best m0

theorem competition_scan_fst (text : String) (d : Option String) :
    ∀ (ls : List CompetitionLevel) (best : Option CompetitionLevel) (m0 : ℚ),
      (competition_scan text d ls (best, m0)).1.isSome =
        (best.isSome ||
          (matched_multipliers ls text d).any (fun x => decide (m0 < x))) := by
  intro ls
  induction ls with
  | nil => intro best m0; simp [competition_scan, matched_multipliers]
  | cons c rest ih =>
    intro best m0
    by_cases happ : competition_applicable d c
    · by_cases hcnt : 0 < count_keyword_matches c.keywords text
      · have hmm : matched_multipliers (c :: rest) text d =
            c.broadcast_multiplier :: matched_multipliers rest text d := by
          simp [matched_multipliers, List.filter_cons, happ, hcnt]
        by_cases hlt : m0 < c.broadcast_multiplier
        · have hsc : competition_scan text d (c :: rest) (best, m0) =
              competition_scan text d rest (some c, c.broadcast_multiplier) := by
            simp [competition_scan, happ, hcnt, hlt]
          rw [hsc, ih, hmm, List.any_cons]
          simp [hlt]
        · have hsc : competition_scan text d (c :: rest) (best, m0) =
              competition_scan text d rest (best, m0) := by
            simp [competition_scan, happ, hcnt, hlt]
          rw [hsc, ih, hmm, List.any_cons]
          simp [hlt]
      · have hmm : matched_multipliers (c :: rest) text d =
            matched_multipliers rest text d := by
          simp [matched_multipliers, List.filter_cons, happ, hcnt]
        have hsc : competition_scan text d (c :: rest) (best, m0) =
            competition_scan text d rest (best, m0) := by
          simp [competition_scan, happ, hcnt]
        rw [hsc, hmm]
        exact ih best m0
    · have hmm : matched_multipliers (c :: rest) text d =
          matched_multipliers rest text d := by
        simp [matched_multipliers, List.filter_cons, happ]
      have hsc : competition_scan text d (c :: rest) (best, m0) =
          competition_scan text d rest (best, m0) := by
        simp [competition_scan, happ]
      rw [hsc, hmm]
      exact ih best m0

/-- Claim C4 (amended).  The competition_level component equals
(highest matched multiplier)/3.0 — clipped at 1 — whenever some applicable
tier both matches the text and has a multiplier strictly above the default
1.0; in every other case (no applicable tier matches, or every matching
tier's multiplier is at most 1.0) it equals the default 0.33 exactly. -/
theorem competition_level_component (levels : List CompetitionLevel)
    (text : String) (detected : Option String) :
    (calculate_competition_level levels text detected).1 =
      if (matched_multipliers levels text detected).any
          (fun x => decide (1 < x)) then
        min 1 (((matched_multipliers levels text detected).foldl max 1) / 3)
      else 33/100 := by
  have hsnd := competition_scan_snd text detected levels none 1
  have hfst := competition_scan_fst text detected levels none 1
  simp only [Option.isSome_none, Bool.false_or] at hfst
  simp only [calculate_competition_level]
  cases hs : (competition_scan text detected levels (none, 1)).1 with
  | none =>
    rw [hs] at hfst
    simp only [Option.isSome_none] at hfst
    rw [hfst.symm]
    simp
  | some c =>
    rw [hs] at hfst
    simp only [Option.isSome_some] at hfst
    rw [hfst.symm]
    simp [hsnd]

/-- Claim C4, as stated, is false: a tier whose keyword matches but whose
multiplier is 0.5 (at most the default 1.0) yields the default 0.33, not
multiplier/3.0 ≈ 0.167. -/
theorem competition_level_claim_counterexample :
    (calculate_competition_level
        [{ code := "segunda_division", sport_type := none,
           broadcast_multiplier := 1/2, keywords := ["segunda división"] }]
        "la segunda división juega hoy" none).1 = 33/100 ∧
      ¬ ((33/100 : ℚ) = (1/2) / 3) := by
  constructor
  · norm_num +decide [calculate_competition_level, competition_scan,
      competition_applicable, count_keyword_matches, pyContains, pyLower]
  · norm_num

/-! ## Theorems: hype-score pattern isolation (claim C9) -/

/-- Claim C9.  A hype indicator whose pattern raises `re.error`
(`Except.error`) is skipped, and the hype score is exactly the score of
the indicator list without it: one malformed pattern never aborts or
zeroes the computation, and every remaining matching indicator's boost is
still summed. -/
theorem hype_score_skips_malformed
    (research : String → String → Except Unit Bool) (text : String)
    (pre post : List HypeIndicator) (bad : HypeIndicator)
    (hbad : research bad.pattern text = Except.error ()) :
    calculate_hype_score research (pre ++ bad :: post) text =
      calculate_hype_score research (pre ++ post) text := by
  unfold calculate_hype_score
  congr 1
  induction pre with
  | nil => simp [hype_total, hbad]
  | cons i rest ih => simp [hype_total, ih]

theorem hype_score_skips_malformed_witness :
    calculate_hype_score
        (fun p _ => if p = "(" then Except.error () else Except.ok true)
        [⟨"final|semifinal", 3/10, "finals"⟩, ⟨"(", 1/4, "rivalry"⟩,
         ⟨"clásico|derbi", 2/10, "rivalry"⟩] "la final del clásico" =
      calculate_hype_score
        (fun p _ => if p = "(" then Except.error () else Except.ok true)
        [⟨"final|semifinal", 3/10, "finals"⟩,
         ⟨"clásico|derbi", 2/10, "rivalry"⟩] "la final del clásico" :=
  hype_score_skips_malformed
    (fun p _ => if p = "(" then Except.error () else Except.ok true)
    "la final del clásico"
    [⟨"final|semifinal", 3/10, "finals"⟩] [⟨"clásico|derbi", 2/10, "rivalry"⟩]
    ⟨"(", 1/4, "rivalry"⟩ (by simp)

/-! ## Theorems: geographic gate national opt-out (claim C5) -/

/-- Claim C5.  For an article located in Colombia but in a different
(normalized) city than the business, a business that has not opted into
national events is never eligible, regardless of the event scale. -/
theorem geo_gate_national_optout (a : Article) (b : Business)
    (hc : a.event_country = "Colombia") (hcity : a.primary_city ≠ "")
    (hdiff : normalize_city a.primary_city ≠ normalize_city (get_city_display b))
    (hnat : b.include_national_events = false) :
    GeographicMatcher.is_relevant a b = false := by
  simp [GeographicMatcher.is_relevant, hc, hcity, hdiff, hnat]

theorem geo_gate_national_optout_witness :
    GeographicMatcher.is_relevant
      { id := 1, title := "maratón", content := "maratón masiva",
        primary_city := "Bogotá", event_country := "Colombia",
        event_scale := "massive" }
      { id := 2, business_type := "pub", city := "medellin",
        include_national_events := false } = false :=
  geo_gate_national_optout _ _ rfl (by decide) (by decide) rfl

/-! ## Theorems: priority escalation (claim C6) -/

/-- Claim C6 (amended).  When the event is at most 2 days away the
generator escalates only `medium` (to `high`) and `high` (to `urgent`);
`low` and `urgent` are left unchanged (the source has no low→medium case).
More than 2 days away, or with no start date, the scale-derived priority
is unchanged. -/
theorem priority_escalation (p : String) (d : ℤ) :
    (d ≤ 2 → adjust_priority p (some d) =
      (if p = "high" then "urgent" else if p = "medium" then "high" else p))
    ∧ (2 < d → adjust_priority p (some d) = p)
    ∧ adjust_priority p none = p := by
  refine ⟨fun h => ?_, fun h => ?_, rfl⟩
  · simp [adjust_priority, h]
  · simp [adjust_priority, not_le.mpr h]

theorem priority_escalation_witness :
    adjust_priority "medium" (some 0) = "high" := by
  have h := (priority_escalation "medium" 0).1 (by norm_num)
  simpa using h

/-- Claim C6, as stated, is false: a `low` template priority on an event
0 days away stays `low`; the generator does not escalate it to `medium`. -/
theorem priority_escalation_counterexample :
    ((RecommendationGenerator.generate []
        { id := 7, title := "concierto íntimo", content := "banda local",
          event_type_detected := "concert", event_scale := "small",
          event_start_datetime := some 3600 }
        { id := 3, business_type := "pub", city := "bogota" }
        (1/2) 0).2.head?.map (fun r => r.priority)) = some "low" ∧
      ("low" : String) ≠ "medium" := by
  constructor
  · norm_num +decide [RecommendationGenerator.generate, TEMPLATES,
      make_recommendation, days_until_event, template_priority,
      adjust_priority, impact_scale_bonus, build_reasoning, pyTruncate,
      pyReplace, replaceFuel, Int.fdiv]
  · decide

/-! ## Theorems: attendance component (claim C8) -/

/-- Claim C8.  The attendance component is the piecewise-linear scaling of
`expected_attendance` over the three configured thresholds into the bands
[0,0.2) / [0.2,0.5) / [0.5,0.8) / [0.8,1.0]; in particular, attendance
10,000 against thresholds 5,000/20,000/50,000 scores exactly
0.2 + ((10000−5000)/(20000−5000))×0.3 = 0.30. -/
theorem attendance_component :
    calculate_attendance_score
      { attendance_small := 5000, attendance_medium := 20000,
        attendance_large := 50000 } (some 10000) = 3/10
    ∧ ∀ (cfg : BroadcastabilityConfig) (att : ℤ),
        0 < cfg.attendance_small →
        cfg.attendance_small < cfg.attendance_medium →
        cfg.attendance_medium < cfg.attendance_large →
        ((att < cfg.attendance_small →
            0 ≤ calculate_attendance_score cfg (some att) ∧
              calculate_attendance_score cfg (some att) < 2/10)
         ∧ (cfg.attendance_small ≤ att → att < cfg.attendance_medium →
            2/10 ≤ calculate_attendance_score cfg (some att) ∧
              calculate_attendance_score cfg (some att) < 5/10)
         ∧ (cfg.attendance_medium ≤ att → att < cfg.attendance_large →
            5/10 ≤ calculate_attendance_score cfg (some att) ∧
              calculate_attendance_score cfg (some att) < 8/10)
         ∧ (cfg.attendance_large ≤ att →
            8/10 ≤ calculate_attendance_score cfg (some att) ∧
              calculate_attendance_score cfg (some att) ≤ 1)) := by
  constructor
  · norm_num [calculate_attendance_score]
  · intro cfg att h1 h2 h3
    have hsq : (0 : ℚ) < (cfg.attendance_small : ℚ) := by exact_mod_cast h1
    have hmsq : (0 : ℚ) < (cfg.attendance_medium : ℚ) - (cfg.attendance_small : ℚ) := by
      rw [sub_pos]; exact_mod_cast h2
    have hlmq : (0 : ℚ) < (cfg.attendance_large : ℚ) - (cfg.attendance_medium : ℚ) := by
      rw [sub_pos]; exact_mod_cast h3
    refine ⟨fun h => ?_, fun ha hb => ?_, fun ha hb => ?_, fun h => ?_⟩
    · by_cases h0 : att ≤ 0
      · simp only [calculate_attendance_score, if_pos h0]
        norm_num
      · have hattq : (0 : ℚ) < (att : ℚ) := by
          have : 0 < att := lt_of_not_le h0
          exact_mod_cast this
        simp only [calculate_attendance_score, if_neg h0, if_pos h]
        constructor
        · exact mul_nonneg (div_nonneg hattq.le hsq.le) (by norm_num)
        · have hr : (att : ℚ) / (cfg.attendance_small : ℚ) < 1 :=
            (div_lt_one hsq).mpr (by exact_mod_cast h)
          nlinarith [hr, hattq, hsq]
    · have h0 : ¬ att ≤ 0 := by omega
      have hns : ¬ att < cfg.attendance_small := by omega
      simp only [calculate_attendance_score, if_neg h0, if_neg hns, if_pos hb]
      have hf0 : 0 ≤ ((att : ℚ) - (cfg.attendance_small : ℚ)) /
          ((cfg.attendance_medium : ℚ) - (cfg.attendance_small : ℚ)) := by
        apply div_nonneg _ hmsq.le
        rw [sub_nonneg]
        exact_mod_cast ha
      have hf1 : ((att : ℚ) - (cfg.attendance_small : ℚ)) /
          ((cfg.attendance_medium : ℚ) - (cfg.attendance_small : ℚ)) < 1 := by
        rw [div_lt_one hmsq]
        have : (att : ℚ) < (cfg.attendance_medium : ℚ) := by exact_mod_cast hb
        linarith
      constructor
      · nlinarith [hf0]
      · nlinarith [hf1]
    · have h0 : ¬ att ≤ 0 := by omega
      have hns : ¬ att < cfg.attendance_small := by omega
      have hnm : ¬ att < cfg.attendance_medium := by omega
      simp only [calculate_attendance_score, if_neg h0, if_neg hns, if_neg hnm,
        if_pos hb]
      have hf0 : 0 ≤ ((att : ℚ) - (cfg.attendance_medium : ℚ)) /
          ((cfg.attendance_large : ℚ) - (cfg.attendance_medium : ℚ)) := by
        apply div_nonneg _ hlmq.le
        rw [sub_nonneg]
        exact_mod_cast ha
      have hf1 : ((att : ℚ) - (cfg.attendance_medium : ℚ)) /
          ((cfg.attendance_large : ℚ) - (cfg.attendance_medium : ℚ)) < 1 := by
        rw [div_lt_one hlmq]
        have : (att : ℚ) < (cfg.attendance_large : ℚ) := by exact_mod_cast hb
        linarith
      constructor
      · nlinarith [hf0]
      · nlinarith [hf1]
    · have h0 : ¬ att ≤ 0 := by omega
      have hns : ¬ att < cfg.attendance_small := by omega
      have hnm : ¬ att < cfg.attendance_medium := by omega
      have hnl : ¬ att < cfg.attendance_large := by omega
      simp only [calculate_attendance_score, if_neg h0, if_neg hns, if_neg hnm,
        if_neg hnl]
      norm_num

theorem attendance_component_witness :
    2/10 ≤ calculate_attendance_score
        { attendance_small := 5000, attendance_medium := 20000,
          attendance_large := 50000 } (some 10000) ∧
      calculate_attendance_score
        { attendance_small := 5000, attendance_medium := 20000,
          attendance_large := 50000 } (some 10000) < 5/10 :=
  (attendance_component.2
      { attendance_small := 5000, attendance_medium := 20000,
        attendance_large := 50000 } 10000
      (by norm_num) (by norm_num) (by norm_num)).2.1
    (by norm_num) (by norm_num)

/-! ## Theorems: the PreFilter worked example (claim C3) -/

/-- Claim C3 (amended).  For a sports_match article (base suitability 0.85
and, being a sports type, eligible for the +0.2 boost) whose event country
differs from Colombia, with Colombian involvement, evaluated against a
reference business with TV screens, on text with no paywall, hospitality
or negative keyword matches and extracted keywords present (so no quality
penalty), the suitability is exactly 0.85×0.4 + 0.2 = 0.54. -/
theorem suitability_foreign_sports_example
    (research : String → String → Bool) (a : Article) (b : Business)
    (hscreens : b.has_tv_screens = true)
    (hcountry : a.event_country ≠ "")
    (hforeign : a.event_country ≠ "Colombia")
    (hinv : a.colombian_involvement = true)
    (hkw : a.extracted_keywords ≠ [])
    (hpay : ∀ p ∈ PAYWALL_PATTERNS,
      research p (pyLower (a.title ++ " " ++ a.content)) = false)
    (hhosp : ∀ k ∈ HOSPITALITY_KEYWORDS,
      research k (pyLower (a.title ++ " " ++ a.content)) = false)
    (hneg : ∀ k ∈ NEGATIVE_KEYWORDS,
      research k (pyLower (a.title ++ " " ++ a.content)) = false) :
    PreFilter.calculate_suitability research a (some "sports_match") (some b)
      = 27/50 := by
  have hpayF : PAYWALL_PATTERNS.any
      (fun p => research p (pyLower (a.title ++ " " ++ a.content))) = false := by
    rw [Bool.eq_false_iff]
    intro hx
    obtain ⟨p, hp, hf⟩ := List.any_eq_true.mp hx
    rw [hpay p hp] at hf
    exact Bool.false_ne_true hf
  have hkF : a.extracted_keywords.isEmpty = false := by
    cases hkl : a.extracted_keywords with
    | nil => exact absurd hkl hkw
    | cons x xs => rfl
  have hhospF : HOSPITALITY_KEYWORDS.filter
      (fun k => research k (pyLower (a.title ++ " " ++ a.content))) = [] := by
    rw [List.filter_eq_nil_iff]
    intro k hk
    simp [hhosp k hk]
  have hnegF : NEGATIVE_KEYWORDS.filter
      (fun k => research k (pyLower (a.title ++ " " ++ a.content))) = [] := by
    rw [List.filter_eq_nil_iff]
    intro k hk
    simp [hneg k hk]
  have hbase : base_event_type_score (some "sports_match") = 85/100 := rfl
  simp only [PreFilter.calculate_suitability, hpayF, Bool.false_eq_true,
    if_false, hkF, Bool.false_and, hbase]
  rw [if_pos ⟨hcountry, hforeign⟩, if_neg (by simp [hinv]), if_neg (by simp [hscreens])]
  simp only [suitability_tail, hinv, hscreens, hhospF, hnegF]
  norm_num

theorem suitability_foreign_sports_example_witness :
    PreFilter.calculate_suitability (fun _ _ => false)
      { id := 1, title := "partido de la selección",
        content := "eliminatorias en el exterior",
        event_country := "Brasil", colombian_involvement := true,
        extracted_keywords := ["partido"] }
      (some "sports_match")
      (some { id := 1, business_type := "pub", city := "bogota",
              has_tv_screens := true }) = 27/50 :=
  suitability_foreign_sports_example (fun _ _ => false) _ _
    rfl (by decide) (by decide) rfl (by decide)
    (fun _ _ => rfl) (fun _ _ => rfl) (fun _ _ => rfl)

/-- Claim C3, as stated, is false for the other base-0.85 event type: a
`concert` article under the same conditions (foreign country, Colombian
involvement, reference business with screens, no keyword adjustments)
scores 0.85×0.4 = 0.34, because the +0.2 boost applies only to
sports_match/tournament events. -/
theorem suitability_claim_085_counterexample :
    PreFilter.calculate_suitability (fun _ _ => false)
      { id := 2, title := "gran concierto internacional",
        content := "banda extranjera con artista colombiano invitado",
        event_country := "Argentina", colombian_involvement := true,
        extracted_keywords := ["concierto"] }
      (some "concert")
      (some { id := 1, business_type := "pub", city := "bogota",
              has_tv_screens := true }) = 17/50 ∧
      (17/50 : ℚ) ≠ 27/50 := by
  have hbase : base_event_type_score (some "concert") = 85/100 := rfl
  constructor
  · norm_num +decide [PreFilter.calculate_suitability, suitability_tail,
      hbase, PAYWALL_PATTERNS, HOSPITALITY_KEYWORDS, NEGATIVE_KEYWORDS]
  · norm_num

/-! ## Theorems: recommendation replacement (claim C7) -/

/-- Number of stored recommendation rows for one (article, business) pair
(the filter of the source's delete query). -/
def pair_count (db : List Recommendation) (a : Article) (b : Business) : ℕ :=
  (db.filter (fun r => r.business_id == b.id && r.object_id == a.id)).length

/-- The stored table after one generate-then-save round for a pair: the
table left by the generator's delete step, plus the saved new rows. -/
def save_generated (db : List Recommendation) (a : Article) (b : Business)
    (rel : ℚ) (now : ℤ) : List Recommendation :=
  (RecommendationGenerator.generate db a b rel now).1 ++
    (RecommendationGenerator.generate db a b rel now).2

theorem make_recommendation_ids (a : Article) (b : Business) (rel : ℚ)
    (et sc : String) (days : Option ℤ) (tpl : RecTemplate)
    (r : Recommendation)
    (h : make_recommendation a b rel et sc days tpl = some r) :
    r.business_id = b.id ∧ r.object_id = a.id := by
  unfold make_recommendation at h
  split at h
  · exact absurd h (by simp)
  · simp only [Option.some.injEq] at h
    subst h
    exact ⟨rfl, rfl⟩

theorem generate_recs_ids (db : List Recommendation) (a : Article)
    (b : Business) (rel : ℚ) (now : ℤ) (r : Recommendation)
    (hr : r ∈ (RecommendationGenerator.generate db a b rel now).2) :
    r.business_id = b.id ∧ r.object_id = a.id := by
  cases hlk : TEMPLATES.lookup a.event_type_detected with
  | none => simp [RecommendationGenerator.generate, hlk] at hr
  | some cfg =>
    by_cases hmem : b.business_type ∈ cfg.business_types
    · simp only [RecommendationGenerator.generate, hlk, if_pos hmem,
        List.mem_filterMap] at hr
      obtain ⟨tpl, _, htpl⟩ := hr
      exact make_recommendation_ids a b rel _ _ _ tpl r htpl
    · simp [RecommendationGenerator.generate, hlk, hmem] at hr

/-- Claim C7.  Whenever `RecommendationGenerator.generate` produces
recommendations for an (article, business) pair: the pair's previously
stored rows are all deleted first; at most 3 new recommendations are
produced; after saving, the pair's row count equals the freshly generated
count; and regenerating from the saved state reproduces exactly the same
recommendations and leaves the pair's row count unchanged (replacement,
never accumulation). -/
theorem generate_replaces_and_caps (db : List Recommendation) (a : Article)
    (b : Business) (rel : ℚ) (now : ℤ)
    (hne : (RecommendationGenerator.generate db a b rel now).2 ≠ []) :
    pair_count (RecommendationGenerator.generate db a b rel now).1 a b = 0
    ∧ (RecommendationGenerator.generate db a b rel now).2.length ≤ 3
    ∧ pair_count (save_generated db a b rel now) a b
        = (RecommendationGenerator.generate db a b rel now).2.length
    ∧ (RecommendationGenerator.generate (save_generated db a b rel now) a b rel now).2
        = (RecommendationGenerator.generate db a b rel now).2
    ∧ pair_count (save_generated (save_generated db a b rel now) a b rel now) a b
        = (RecommendationGenerator.generate db a b rel now).2.length := by
  cases hlk : TEMPLATES.lookup a.event_type_detected with
  | none =>
    exact absurd (by simp [RecommendationGenerator.generate, hlk]) hne
  | some cfg =>
    by_cases hmem : b.business_type ∈ cfg.business_types
    · have hg : ∀ d : List Recommendation,
          RecommendationGenerator.generate d a b rel now =
            (d.filter (fun r => !(r.business_id == b.id && r.object_id == a.id)),
             (cfg.templates.take 3).filterMap
               (make_recommendation a b rel a.event_type_detected
                 (if a.event_scale = "" then "medium" else a.event_scale)
                 (days_until_event a now))) := by
        intro d
        simp [RecommendationGenerator.generate, hlk, hmem]
      have hids : ∀ r ∈ (RecommendationGenerator.generate db a b rel now).2,
          (r.business_id == b.id && r.object_id == a.id) = true := by
        intro r hr
        obtain ⟨h1, h2⟩ := generate_recs_ids db a b rel now r hr
        simp [h1, h2]
      have hq0 : ∀ d : List Recommendation,
          List.filter (fun r => r.business_id == b.id && r.object_id == a.id)
            (List.filter
              (fun r => !(r.business_id == b.id && r.object_id == a.id)) d)
            = [] := by
        intro d
        rw [List.filter_filter]
        simp
      have hself : (RecommendationGenerator.generate db a b rel now).2.filter
          (fun r => r.business_id == b.id && r.object_id == a.id) =
          (RecommendationGenerator.generate db a b rel now).2 :=
        List.filter_eq_self.mpr hids
      have hfst : (RecommendationGenerator.generate db a b rel now).1 =
          db.filter (fun r => !(r.business_id == b.id && r.object_id == a.id)) := by
        rw [hg db]
      have hfst2 : (RecommendationGenerator.generate
            (save_generated db a b rel now) a b rel now).1 =
          (save_generated db a b rel now).filter
            (fun r => !(r.business_id == b.id && r.object_id == a.id)) := by
        rw [hg (save_generated db a b rel now)]
      have hsnd2 : (RecommendationGenerator.generate
            (save_generated db a b rel now) a b rel now).2 =
          (RecommendationGenerator.generate db a b rel now).2 := by
        rw [hg (save_generated db a b rel now), hg db]
      refine ⟨?_, ?_, ?_, hsnd2, ?_⟩
      · unfold pair_count
        rw [hfst, hq0 db]
        rfl
      · rw [hg db]
        exact le_trans (List.length_filterMap_le _ _) (by simp)
      · unfold save_generated pair_count
        rw [List.filter_append, List.length_append, hfst, hq0 db, hself]
        simp
      · unfold pair_count
        rw [show save_generated (save_generated db a b rel now) a b rel now =
            (RecommendationGenerator.generate (save_generated db a b rel now)
              a b rel now).1 ++
            (RecommendationGenerator.generate (save_generated db a b rel now)
              a b rel now).2 from rfl]
        rw [List.filter_append, List.length_append, hfst2, hsnd2, hself,
          hq0 (save_generated db a b rel now)]
        simp
    · exact absurd (by simp [RecommendationGenerator.generate, hlk, hmem]) hne

/-- A stale stored recommendation for the witness pair. -/
def sample_stale_rec : Recommendation :=
  { business_id := 3, object_id := 7, title := "recomendación vieja",
    description := "x", category := "inventory",
    action_type := "increase_inventory", priority := "low",
    confidence_score := 1/2, impact_score := 1/2, effort_score := 1/2,
    estimated_duration_hours := 4, reasoning := "r",
    recommended_start_date := none, recommended_end_date := none }

/-- A festival article for the witness pair. -/
def sample_festival_article : Article :=
  { id := 7, title := "festival de verano", content := "gran festival",
    event_type_detected := "festival", event_scale := "large" }

/-- A bookstore for the witness pair (festival templates apply to
bookstores). -/
def sample_bookstore : Business :=
  { id := 3, business_type := "bookstore", city := "bogota" }

theorem generate_replaces_and_caps_witness :
    pair_count (save_generated [sample_stale_rec] sample_festival_article
        sample_bookstore (1/2) 0) sample_festival_article sample_bookstore =
      (RecommendationGenerator.generate [sample_stale_rec]
        sample_festival_article sample_bookstore (1/2) 0).2.length ∧
    (RecommendationGenerator.generate [sample_stale_rec]
        sample_festival_article sample_bookstore (1/2) 0).2.length ≤ 3 := by
  have hne : (RecommendationGenerator.generate [sample_stale_rec]
      sample_festival_article sample_bookstore (1/2) 0).2 ≠ [] := by
    intro hcontra
    have h3 : (RecommendationGenerator.generate [sample_stale_rec]
        sample_festival_article sample_bookstore (1/2) 0).2.length = 3 := rfl
    rw [hcontra] at h3
    simp at h3
  have h := generate_replaces_and_caps [sample_stale_rec]
    sample_festival_article sample_bookstore (1/2) 0 hne
  exact ⟨h.2.2.1, h.2.1⟩

/-! ## Theorems: broadcastability failure isolation (claim C10) -/

/-- Claim C10.  If `BroadcastabilityCalculator.calculate` raises, the
orchestrator does not abort: the whole run (persisted state and returned
result) is exactly the run in which the calculator returned the zero
result — so processing continues through matching and recommendation
generation — and the stored article carries `broadcastability_score = 0`,
`hype_score = 0` and `is_broadcastable = False`. -/
theorem broadcast_failure_isolated (env : Env) (msg : String) (f : Features)
    (now : ℤ) (w : World)
    (hb : ∀ x : Article, env.broadcast x = Except.error msg)
    (hx : env.extract = Except.ok f) :
    MLOrchestrator.process_article env now true w =
      MLOrchestrator.process_article
        { env with broadcast := fun _ => Except.ok zero_result } now true w
    ∧ (MLOrchestrator.process_article env now true w).1.article.broadcastability_score = 0
    ∧ (MLOrchestrator.process_article env now true w).1.article.hype_score = 0
    ∧ (MLOrchestrator.process_article env now true w).1.article.is_broadcastable = false := by
  have hae : article_after_extraction env w.businesses w.article f =
      article_after_extraction
        { env with broadcast := fun _ => Except.ok zero_result }
        w.businesses w.article f := by
    simp only [article_after_extraction]
    rw [hb]
    rfl
  have ha4 :
      (article_after_extraction env w.businesses w.article f).broadcastability_score = 0
      ∧ (article_after_extraction env w.businesses w.article f).hype_score = 0
      ∧ (article_after_extraction env w.businesses w.article f).is_broadcastable = false := by
    simp only [article_after_extraction]
    rw [hb]
    exact ⟨rfl, rfl, rfl⟩
  refine ⟨?_, ?_, ?_, ?_⟩
  · simp only [MLOrchestrator.process_article, hx]
    rw [hae]
    rfl
  · simp only [MLOrchestrator.process_article, hx]
    split
    · simp [ha4.1]
    · split
      · simp [ha4.1]
      · simp [ha4.1]
  · simp only [MLOrchestrator.process_article, hx]
    split
    · simp [ha4.2.1]
    · split
      · simp [ha4.2.1]
      · simp [ha4.2.1]
  · simp only [MLOrchestrator.process_article, hx]
    split
    · simp [ha4.2.2]
    · split
      · simp [ha4.2.2]
      · simp [ha4.2.2]

theorem broadcast_failure_isolated_witness :
    (MLOrchestrator.process_article
        { extract := Except.ok { event_type := some "sports_match" }
          llm := Except.ok none
          broadcast := fun _ => Except.error "calculator crashed"
          relevance := fun _ _ => Except.ok 0
          research := fun _ _ => false } 0 true
        { article := { id := 1, title := "partido", content := "fútbol" }
          businesses := [], type_keywords := [], recs := [] }).1.article.broadcastability_score = 0 :=
  (broadcast_failure_isolated
    { extract := Except.ok { event_type := some "sports_match" }
      llm := Except.ok none
      broadcast := fun _ => Except.error "calculator crashed"
      relevance := fun _ _ => Except.ok 0
      research := fun _ _ => false } "calculator crashed"
    { event_type := some "sports_match" } 0
    { article := { id := 1, title := "partido", content := "fútbol" }
      businesses := [], type_keywords := [], recs := [] }
    (fun _ => rfl) rfl).2.1

/-! ## Theorems: exception handling in Process (claim C1)

The source's `process_article` wraps its whole body in
`try/except Exception`; the handler assigns `article.processing_error`,
calls `article.save()` and returns `{'success': False, 'error': ...}`.
Because the exception is caught inside the `@transaction.atomic` method,
the transaction commits instead of rolling back, so every `article.save()`
executed before the failure — including the one persisting the freshly
extracted fields — survives, and no exception reaches the caller.  The
following concrete run makes the per-business relevance computation (a
database read in the source) raise after the extracted fields were
persisted. -/

/-- The active pub with id 1 (also the primary reference business). -/
def crash_business : Business :=
  { id := 1, business_type := "pub", city := "bogota" }

/-- An environment whose relevance computation raises; extraction yields a
local Bogotá sports article with suitability 0.85. -/
def crash_env : Env :=
  { extract := Except.ok
      { event_type := some "sports_match", city := some "Bogotá",
        scale := some "large", event_country := some "Colombia",
        keywords := ["partido"] }
    llm := Except.ok none
    broadcast := fun _ => Except.ok zero_result
    relevance := fun _ _ => Except.error "database connection lost"
    research := fun _ _ => false }

/-- The pre-run persisted state: an unprocessed article. -/
def crash_world : World :=
  { article := { id := 5, title := "partido en bogotá", content := "gran partido" }
    businesses := [crash_business], type_keywords := [], recs := [] }

/-- Claim C1 is violated by the code (code bug): when the relevance
computation raises mid-run, `process_article` returns the failure
dictionary instead of re-raising, and the persisted article keeps the
run's partial mutations (features_extracted flipped to True, the new
suitability score) instead of reverting to its pre-run state; only the
error-message recording holds.  This contradicts both the spec and the
method's own docstring ("either both succeed or both rollback"). -/
theorem process_article_swallows_exception :
    (MLOrchestrator.process_article crash_env 0 true crash_world).2 =
      ProcResult.failed "database connection lost"
    ∧ (MLOrchestrator.process_article crash_env 0 true
        crash_world).1.article.processing_error = "database connection lost"
    ∧ (MLOrchestrator.process_article crash_env 0 true
        crash_world).1.article.features_extracted = true
    ∧ (MLOrchestrator.process_article crash_env 0 true
        crash_world).1.article.business_suitability_score = 85/100
    ∧ crash_world.article.features_extracted = false
    ∧ crash_world.article.business_suitability_score = 0 := by
  have hbase : base_event_type_score (some "sports_match") = 85/100 := rfl
  have hdisp : get_city_display crash_business = "Bogotá" := rfl
  refine ⟨?_, ?_, ?_, ?_, rfl, rfl⟩ <;>
    norm_num +decide [MLOrchestrator.process_article,
      article_after_extraction, pre_broadcast_article, apply_features,
      apply_llm_overrides, apply_broadcast_result,
      PreFilter.calculate_suitability, suitability_tail, hbase,
      PAYWALL_PATTERNS, HOSPITALITY_KEYWORDS, NEGATIVE_KEYWORDS,
      match_scan, GeographicMatcher.is_relevant, normalize_city, pyLower,
      pyCharLower, hdisp, crash_env, crash_world, crash_business,
      zero_result, min_def, max_def]

/-! ## Theorems: idempotence of Process (claim C2)

`calculate_suitability` reads `article.is_broadcastable` and
`article.broadcastability_score`, which the same run only recomputes later
(step 2.6 comes after step 2), so the first run evaluates them at their
pre-run values and the second run at the values the first run stored.  An
international sports article that is broadcastable therefore scores 0 on
the first run and broadcastability×0.75 on the second. -/

/-- A broadcastability taxonomy snapshot: soccer (appeal 0.9), a
world-cup tier (multiplier 3.0, scoped to soccer), no hype indicators,
default config. -/
def c2_tax : BroadcastTaxonomy :=
  { config := {}
    sport_types := [{ code := "soccer", latin_america_appeal := 9/10,
                      keywords := ["fútbol"] }]
    competition_levels := [{ code := "world_cup", sport_type := some "soccer",
                             broadcast_multiplier := 3,
                             keywords := ["copa mundial"] }]
    hype_indicators := [] }

/-- The honest environment for the C2 run: pure embedded collaborators,
extraction yielding an international (Brazil) sports_match with 60,000
attendance and no Colombian involvement. -/
def c2_env : Env :=
  Env.pure_env (fun _ _ => false) (fun _ _ => Except.ok false) c2_tax []
    { event_type := some "sports_match", scale := some "massive",
      attendance := some 60000, event_country := some "Brasil",
      colombian_involvement := false, keywords := ["k"] }
    none

/-- Pre-run state: unprocessed article, one active pub with screens
(id 1, so it is also the primary reference business). -/
def c2_world : World :=
  { article := { id := 9, title := "final copa mundial",
                 content := "fútbol en brasil" }
    businesses := [{ id := 1, business_type := "pub", city := "bogota",
                     has_tv_screens := true }]
    type_keywords := [], recs := [] }

/-- Claim C2, as stated, is false: with unchanged inputs the first run
stores business_suitability_score = 0 (it read the pre-run
is_broadcastable = False), while the second run stores
0.765 × 0.75 = 0.57375 (it read the broadcastability the first run
persisted) — the two runs do not yield identical article fields. -/
theorem process_not_idempotent_counterexample :
    (MLOrchestrator.process_article c2_env 0 true
        c2_world).1.article.business_suitability_score = 0
    ∧ (MLOrchestrator.process_article c2_env 0 true
        ((MLOrchestrator.process_article c2_env 0 true
          c2_world).1)).1.article.business_suitability_score = 459/800
    ∧ ((0 : ℚ) ≠ 459/800) := by
  refine ⟨?_, ?_, by norm_num⟩ <;>
    norm_num +decide [MLOrchestrator.process_article,
      article_after_extraction, pre_broadcast_article, apply_features,
      apply_llm_overrides, apply_broadcast_result,
      PreFilter.calculate_suitability, suitability_tail,
      PAYWALL_PATTERNS, HOSPITALITY_KEYWORDS, NEGATIVE_KEYWORDS,
      match_scan, GeographicMatcher.is_relevant, rec_scan,
      Env.pure_env, BroadcastabilityCalculator.calculate,
      calculate_sport_appeal, sport_appeal_scan, count_keyword_matches,
      calculate_competition_level, competition_scan,
      competition_applicable, calculate_hype_score, hype_total,
      calculate_attendance_score, roundTo, round_eq, pyContains, pyLower,
      pyCharLower, c2_env, c2_world, c2_tax, min_def, max_def]

/-! ### The pure form of one run

With the honest environment nothing raises, so the business loop is a pure
fold and one run has exactly two outcomes (early exit or full
processing). -/

/-- The business loop of step 4 when the relevance computation is pure. -/
def pure_match_scan (g : Article → Business → ℚ) (a : Article) :
    List Business → ℚ → List (Business × ℚ) → ℚ × List (Business × ℚ)
  | [], maxRel, acc => (maxRel, acc.reverse)
  | b :: rest, maxRel, acc =>
    if b.is_active = false then pure_match_scan g a rest maxRel acc
    else if GeographicMatcher.is_relevant a b = false then
      pure_match_scan g a rest maxRel acc
    else
      let rel := g a b
      pure_match_scan g a rest (if maxRel < rel then rel else maxRel)
        (if 2/5 < rel then (b, rel) :: acc else acc)

theorem match_scan_pure (g : Article → Business → ℚ) (a : Article) :
    ∀ (bs : List Business) (m : ℚ) (acc : List (Business × ℚ)),
      match_scan (fun x y => Except.ok (g x y)) a bs m acc =
        Except.ok (pure_match_scan g a bs m acc) := by
  intro bs
  induction bs with
  | nil => intro m acc; rfl
  | cons b rest ih =>
    intro m acc
    by_cases h1 : b.is_active = false
    · simp [match_scan, pure_match_scan, h1, ih]
    · by_cases h2 : GeographicMatcher.is_relevant a b = false
      · simp [match_scan, pure_match_scan, h1, h2, ih]
      · simp [match_scan, pure_match_scan, h1, h2, ih]

theorem pure_env_extract (research : String → String → Bool)
    (hype_research : String → String → Except Unit Bool)
    (tax : BroadcastTaxonomy) (tks : List BusinessTypeKeyword)
    (f : Features) (lf : Option LlmFeatures) :
    (Env.pure_env research hype_research tax tks f lf).extract =
      Except.ok f := rfl

theorem pure_env_relevance (research : String → String → Bool)
    (hype_research : String → String → Except Unit Bool)
    (tax : BroadcastTaxonomy) (tks : List BusinessTypeKeyword)
    (f : Features) (lf : Option LlmFeatures) :
    (Env.pure_env research hype_research tax tks f lf).relevance =
      fun a b => Except.ok (BusinessMatcher.calculate_relevance tks a b) := rfl

theorem process_pure_low (research : String → String → Bool)
    (hype_research : String → String → Except Unit Bool)
    (tax : BroadcastTaxonomy) (tks : List BusinessTypeKeyword)
    (f : Features) (lf : Option LlmFeatures) (now : ℤ) (w : World)
    (h : (article_after_extraction
        (Env.pure_env research hype_research tax tks f lf) w.businesses
        w.article f).business_suitability_score < 3/10) :
    MLOrchestrator.process_article
        (Env.pure_env research hype_research tax tks f lf) now true w =
      ({ w with article := (article_after_extraction
          (Env.pure_env research hype_research tax tks f lf) w.businesses
          w.article f) },
       ProcResult.lowSuitability (article_after_extraction
          (Env.pure_env research hype_research tax tks f lf) w.businesses
          w.article f).business_suitability_score) := by
  simp only [MLOrchestrator.process_article, pure_env_extract]
  rw [if_pos h]
  simp

theorem process_pure_high (research : String → String → Bool)
    (hype_research : String → String → Except Unit Bool)
    (tax : BroadcastTaxonomy) (tks : List BusinessTypeKeyword)
    (f : Features) (lf : Option LlmFeatures) (now : ℤ) (w : World)
    (h : ¬ (article_after_extraction
        (Env.pure_env research hype_research tax tks f lf) w.businesses
        w.article f).business_suitability_score < 3/10) :
    MLOrchestrator.process_article
        (Env.pure_env research hype_research tax tks f lf) now true w =
      ({ w with
          article := { article_after_extraction
              (Env.pure_env research hype_research tax tks f lf)
              w.businesses w.article f with
            business_relevance_score := (pure_match_scan
              (fun x y => BusinessMatcher.calculate_relevance tks x y)
              (article_after_extraction
                (Env.pure_env research hype_research tax tks f lf)
                w.businesses w.article f) w.businesses 0 []).1 }
          recs := (rec_scan
            { article_after_extraction
                (Env.pure_env research hype_research tax tks f lf)
                w.businesses w.article f with
              business_relevance_score := (pure_match_scan
                (fun x y => BusinessMatcher.calculate_relevance tks x y)
                (article_after_extraction
                  (Env.pure_env research hype_research tax tks f lf)
                  w.businesses w.article f) w.businesses 0 []).1 }
            now true
            (pure_match_scan
              (fun x y => BusinessMatcher.calculate_relevance tks x y)
              (article_after_extraction
                (Env.pure_env research hype_research tax tks f lf)
                w.businesses w.article f) w.businesses 0 []).2
            w.recs 0).1 },
       ProcResult.processed
         (article_after_extraction
           (Env.pure_env research hype_research tax tks f lf) w.businesses
           w.article f).business_suitability_score
         (pure_match_scan
           (fun x y => BusinessMatcher.calculate_relevance tks x y)
           (article_after_extraction
             (Env.pure_env research hype_research tax tks f lf)
             w.businesses w.article f) w.businesses 0 []).1
         (pure_match_scan
           (fun x y => BusinessMatcher.calculate_relevance tks x y)
           (article_after_extraction
             (Env.pure_env research hype_research tax tks f lf)
             w.businesses w.article f) w.businesses 0 []).2.length
         (rec_scan
           { article_after_extraction
               (Env.pure_env research hype_research tax tks f lf)
               w.businesses w.article f with
             business_relevance_score := (pure_match_scan
               (fun x y => BusinessMatcher.calculate_relevance tks x y)
               (article_after_extraction
                 (Env.pure_env research hype_research tax tks f lf)
                 w.businesses w.article f) w.businesses 0 []).1 }
           now true
           (pure_match_scan
             (fun x y => BusinessMatcher.calculate_relevance tks x y)
             (article_after_extraction
               (Env.pure_env research hype_research tax tks f lf)
               w.businesses w.article f) w.businesses 0 []).2
           w.recs 0).2) := by
  simp only [MLOrchestrator.process_article, pure_env_extract]
  rw [if_neg h, pure_env_relevance, match_scan_pure]
  simp

/-! ### Field tracking through one run

With the pure environment every stage is a record literal, so the
following projections hold definitionally: the run never writes the
upstream fields, always overwrites the extracted fields from the feature
map, and passes `business_relevance_score` through untouched until
step 4. -/

theorem after_extraction_brs (research : String → String → Bool)
    (hype_research : String → String → Except Unit Bool)
    (tax : BroadcastTaxonomy) (tks : List BusinessTypeKeyword)
    (f : Features) (lf : Option LlmFeatures) (bs : List Business)
    (x : Article) :
    (article_after_extraction (Env.pure_env research hype_research tax tks f lf)
      bs x f).business_relevance_score = x.business_relevance_score := rfl

theorem after_extraction_immutables (research : String → String → Bool)
    (hype_research : String → String → Except Unit Bool)
    (tax : BroadcastTaxonomy) (tks : List BusinessTypeKeyword)
    (f : Features) (lf : Option LlmFeatures) (bs : List Business)
    (x : Article) :
    (article_after_extraction (Env.pure_env research hype_research tax tks f lf)
        bs x f).id = x.id
    ∧ (article_after_extraction (Env.pure_env research hype_research tax tks f lf)
        bs x f).title = x.title
    ∧ (article_after_extraction (Env.pure_env research hype_research tax tks f lf)
        bs x f).content = x.content
    ∧ (article_after_extraction (Env.pure_env research hype_research tax tks f lf)
        bs x f).urgency_score = x.urgency_score
    ∧ (article_after_extraction (Env.pure_env research hype_research tax tks f lf)
        bs x f).sentiment_score = x.sentiment_score
    ∧ (article_after_extraction (Env.pure_env research hype_research tax tks f lf)
        bs x f).venue_address = x.venue_address
    ∧ (article_after_extraction (Env.pure_env research hype_research tax tks f lf)
        bs x f).latitude = x.latitude
    ∧ (article_after_extraction (Env.pure_env research hype_research tax tks f lf)
        bs x f).longitude = x.longitude :=
  ⟨rfl, rfl, rfl, rfl, rfl, rfl, rfl, rfl⟩

theorem after_extraction_category (research : String → String → Bool)
    (hype_research : String → String → Except Unit Bool)
    (tax : BroadcastTaxonomy) (tks : List BusinessTypeKeyword)
    (f : Features) (lf : Option LlmFeatures) (bs : List Business)
    (x : Article) :
    (article_after_extraction (Env.pure_env research hype_research tax tks f lf)
        bs x f).category =
      (if f.event_type.getD "" ≠ "" then
        ((category_map.lookup (f.event_type.getD "")).getD
          ("comunidad", "otros")).1
      else x.category)
    ∧ (article_after_extraction (Env.pure_env research hype_research tax tks f lf)
        bs x f).subcategory =
      (if f.event_type.getD "" ≠ "" then
        ((category_map.lookup (f.event_type.getD "")).getD
          ("comunidad", "otros")).2
      else x.subcategory) :=
  ⟨rfl, rfl⟩

theorem pre_broadcast_reads (research : String → String → Bool)
    (hype_research : String → String → Except Unit Bool)
    (tax : BroadcastTaxonomy) (tks : List BusinessTypeKeyword)
    (f : Features) (lf : Option LlmFeatures) (bs : List Business)
    (x : Article) :
    (pre_broadcast_article (Env.pure_env research hype_research tax tks f lf)
        bs x f).title = x.title
    ∧ (pre_broadcast_article (Env.pure_env research hype_research tax tks f lf)
        bs x f).content = x.content
    ∧ (pre_broadcast_article (Env.pure_env research hype_research tax tks f lf)
        bs x f).event_type_detected = f.event_type.getD ""
    ∧ (pre_broadcast_article (Env.pure_env research hype_research tax tks f lf)
        bs x f).expected_attendance = f.attendance :=
  ⟨rfl, rfl, rfl, rfl⟩

theorem after_extraction_broadcast_fields (research : String → String → Bool)
    (hype_research : String → String → Except Unit Bool)
    (tax : BroadcastTaxonomy) (tks : List BusinessTypeKeyword)
    (f : Features) (lf : Option LlmFeatures) (bs : List Business)
    (x : Article) :
    (article_after_extraction (Env.pure_env research hype_research tax tks f lf)
        bs x f).is_broadcastable =
      (BroadcastabilityCalculator.calculate tax hype_research
        (pre_broadcast_article
          (Env.pure_env research hype_research tax tks f lf) bs x f)).is_broadcastable
    ∧ (article_after_extraction (Env.pure_env research hype_research tax tks f lf)
        bs x f).broadcastability_score =
      (BroadcastabilityCalculator.calculate tax hype_research
        (pre_broadcast_article
          (Env.pure_env research hype_research tax tks f lf) bs x f)).broadcastability_score :=
  ⟨rfl, rfl⟩

/-- `BroadcastabilityCalculator.calculate` reads only the title, content,
detected event type and expected attendance of the article. -/
theorem calculate_congr (tax : BroadcastTaxonomy)
    (hype_research : String → String → Except Unit Bool) (a a' : Article)
    (h1 : a.title = a'.title) (h2 : a.content = a'.content)
    (h3 : a.event_type_detected = a'.event_type_detected)
    (h4 : a.expected_attendance = a'.expected_attendance) :
    BroadcastabilityCalculator.calculate tax hype_research a =
      BroadcastabilityCalculator.calculate tax hype_research a' := by
  simp only [BroadcastabilityCalculator.calculate]
  rw [h1, h2, h3, h4]

/-- The central congruence for one run: two in-memory articles that agree
on every field the extraction stages read (the upstream fields, category
and subcategory, and the broadcastability fields consumed by the
PreFilter) produce the same post-extraction article, except that each
passes its own `business_relevance_score` through. -/
theorem after_extraction_congr (research : String → String → Bool)
    (hype_research : String → String → Except Unit Bool)
    (tax : BroadcastTaxonomy) (tks : List BusinessTypeKeyword)
    (f : Features) (lf : Option LlmFeatures) (bs : List Business)
    (x y : Article)
    (hid : x.id = y.id) (htitle : x.title = y.title)
    (hcontent : x.content = y.content)
    (hurg : x.urgency_score = y.urgency_score)
    (hsent : x.sentiment_score = y.sentiment_score)
    (hva : x.venue_address = y.venue_address)
    (hlat : x.latitude = y.latitude) (hlon : x.longitude = y.longitude)
    (hcat : x.category = y.category) (hsub : x.subcategory = y.subcategory)
    (hib : x.is_broadcastable = y.is_broadcastable)
    (hbsc : x.broadcastability_score = y.broadcastability_score) :
    article_after_extraction (Env.pure_env research hype_research tax tks f lf)
        bs x f =
      { article_after_extraction
          (Env.pure_env research hype_research tax tks f lf) bs y f with
        business_relevance_score := x.business_relevance_score } := by
  cases x
  cases y
  simp only at hid htitle hcontent hurg hsent hva hlat hlon hcat hsub hib hbsc
  subst hid htitle hcontent hurg hsent hva hlat hlon hcat hsub hib hbsc
  simp only [article_after_extraction, pre_broadcast_article, apply_features,
    apply_llm_overrides, apply_broadcast_result, Env.pure_env,
    PreFilter.calculate_suitability, suitability_tail,
    calculate_feature_completeness, completeness_flags,
    BroadcastabilityCalculator.calculate]

/-- Writing back an article's own relevance score is the identity. -/
theorem brs_update_self (a : Article) :
    { a with business_relevance_score := a.business_relevance_score } = a := by
  cases a
  rfl

/-- Consecutive relevance-score writes collapse to the last one. -/
theorem brs_update_collapse (a : Article) (p q : ℚ) :
    ({ ({ a with business_relevance_score := p } : Article) with
        business_relevance_score := q } : Article) =
      { a with business_relevance_score := q } := by
  cases a
  rfl

/-- The step-4 loop ignores the article's relevance score. -/
theorem pure_match_scan_brs_update (tks : List BusinessTypeKeyword)
    (a : Article) (q : ℚ) :
    ∀ (bs : List Business) (m : ℚ) (acc : List (Business × ℚ)),
      pure_match_scan (fun x y => BusinessMatcher.calculate_relevance tks x y)
          { a with business_relevance_score := q } bs m acc =
        pure_match_scan (fun x y => BusinessMatcher.calculate_relevance tks x y)
          a bs m acc := by
  intro bs
  induction bs with
  | nil => intro m acc; rfl
  | cons b rest ih =>
    intro m acc
    have hgeo : GeographicMatcher.is_relevant
        { a with business_relevance_score := q } b =
        GeographicMatcher.is_relevant a b := rfl
    have hrel : BusinessMatcher.calculate_relevance tks
        { a with business_relevance_score := q } b =
        BusinessMatcher.calculate_relevance tks a b := rfl
    by_cases h1 : b.is_active = false
    · simp only [pure_match_scan, if_pos h1]
      exact ih m acc
    · by_cases h2 : GeographicMatcher.is_relevant a b = false
      · simp only [pure_match_scan, if_neg h1, hgeo, if_pos h2]
        exact ih m acc
      · simp only [pure_match_scan, if_neg h1, hgeo, if_neg h2, hrel]
        exact ih _ _

/-! ### The recommendation table across the step-5 loop

`rec_scan` has a closed form: it removes every stored row of the
article paired with any business that will receive fresh rows, and
appends the fresh rows.  Applied twice with the same pairs it is
therefore the identity on its own output, provided all paired businesses
have distinct ids. -/

/-- `generate` deletes and writes for this business iff a template config
exists for the detected event type and lists the business's type. -/
def applicable_business (a : Article) (b : Business) : Bool :=
  match TEMPLATES.lookup a.event_type_detected with
  | none => false
  | some cfg => decide (b.business_type ∈ cfg.business_types)

/-- A stored row belongs to the article paired with one of `bs`. -/
def pair_pred (a : Article) (bs : List Business) (r : Recommendation) :
    Bool :=
  bs.any (fun x => r.business_id == x.id && r.object_id == a.id)

/-- The stored table with every row of the article paired with one of
`bs` removed. -/
def strip (a : Article) (bs : List Business) (db : List Recommendation) :
    List Recommendation :=
  db.filter (fun r => !(pair_pred a bs r))

/-- The rows `generate` writes for one pair (they never depend on the
stored table). -/
def gen_recs (a : Article) (now : ℤ) (p : Business × ℚ) :
    List Recommendation :=
  (RecommendationGenerator.generate [] a p.1 p.2 now).2

/-- The businesses of the matched pairs that actually receive rows. -/
def app_businesses (a : Article) (P : List (Business × ℚ)) :
    List Business :=
  (P.filter (fun p => applicable_business a p.1)).map (fun p => p.1)

/-- All fresh rows of the step-5 loop, in loop order. -/
def rcat (a : Article) (now : ℤ) : List (Business × ℚ) →
    List Recommendation
  | [] => []
  | p :: rest => gen_recs a now p ++ rcat a now rest

theorem generate_snd_db (db : List Recommendation) (a : Article)
    (b : Business) (rel : ℚ) (now : ℤ) :
    (RecommendationGenerator.generate db a b rel now).2 =
      gen_recs a now (b, rel) := by
  unfold gen_recs RecommendationGenerator.generate
  cases TEMPLATES.lookup a.event_type_detected with
  | none => rfl
  | some cfg =>
    by_cases hmem : b.business_type ∈ cfg.business_types <;> simp [hmem]

theorem generate_fst_app (db : List Recommendation) (a : Article)
    (b : Business) (rel : ℚ) (now : ℤ)
    (h : applicable_business a b = true) :
    (RecommendationGenerator.generate db a b rel now).1 =
      db.filter (fun r => !(r.business_id == b.id && r.object_id == a.id)) := by
  unfold applicable_business at h
  cases hlk : TEMPLATES.lookup a.event_type_detected with
  | none => rw [hlk] at h; exact absurd h (by simp)
  | some cfg =>
    rw [hlk] at h
    simp only [decide_eq_true_eq] at h
    simp [RecommendationGenerator.generate, hlk, h]

theorem generate_not_app (db : List Recommendation) (a : Article)
    (b : Business) (rel : ℚ) (now : ℤ)
    (h : applicable_business a b = false) :
    RecommendationGenerator.generate db a b rel now = (db, []) := by
  unfold applicable_business at h
  cases hlk : TEMPLATES.lookup a.event_type_detected with
  | none => simp [RecommendationGenerator.generate, hlk]
  | some cfg =>
    rw [hlk] at h
    simp only [decide_eq_false_iff_not] at h
    simp [RecommendationGenerator.generate, hlk, h]

theorem gen_recs_not_app (a : Article) (now : ℤ) (p : Business × ℚ)
    (h : applicable_business a p.1 = false) : gen_recs a now p = [] := by
  unfold gen_recs
  rw [show RecommendationGenerator.generate [] a p.1 p.2 now = ([], [])
    from generate_not_app [] a p.1 p.2 now h]

theorem mem_rcat (a : Article) (now : ℤ) :
    ∀ (P : List (Business × ℚ)) (r : Recommendation),
      r ∈ rcat a now P ↔ ∃ p ∈ P, r ∈ gen_recs a now p := by
  intro P
  induction P with
  | nil => intro r; simp [rcat]
  | cons p rest ih => intro r; simp [rcat, List.mem_append, ih]

theorem app_businesses_cons (a : Article) (p : Business × ℚ)
    (P : List (Business × ℚ)) :
    app_businesses a (p :: P) =
      if applicable_business a p.1 then p.1 :: app_businesses a P
      else app_businesses a P := by
  unfold app_businesses
  cases h : applicable_business a p.1 <;> simp [List.filter_cons, h]

theorem strip_append (a : Article) (bs : List Business)
    (d1 d2 : List Recommendation) :
    strip a bs (d1 ++ d2) = strip a bs d1 ++ strip a bs d2 := by
  unfold strip
  exact List.filter_append _ _

theorem strip_cons (a : Article) (b : Business) (bs : List Business)
    (db : List Recommendation) :
    strip a (b :: bs) db =
      strip a bs
        (db.filter (fun r => !(r.business_id == b.id && r.object_id == a.id))) := by
  unfold strip
  rw [List.filter_filter]
  refine List.filter_congr ?_
  intro r _
  unfold pair_pred
  rw [List.any_cons]
  cases h1 : (r.business_id == b.id && r.object_id == a.id) <;>
    cases h2 : bs.any (fun x => r.business_id == x.id && r.object_id == a.id) <;>
      simp [h1, h2]

theorem strip_idem (a : Article) (bs : List Business)
    (db : List Recommendation) :
    strip a bs (strip a bs db) = strip a bs db := by
  unfold strip
  rw [List.filter_filter]
  refine List.filter_congr ?_
  intro r _
  cases h : pair_pred a bs r <;> simp [h]

theorem strip_of_no_pair (a : Article) (bs : List Business)
    (R : List Recommendation) (h : ∀ r ∈ R, pair_pred a bs r = false) :
    strip a bs R = R := by
  unfold strip
  refine List.filter_eq_self.mpr ?_
  intro r hr
  rw [h r hr]
  rfl

theorem strip_of_all_pair (a : Article) (bs : List Business)
    (R : List Recommendation) (h : ∀ r ∈ R, pair_pred a bs r = true) :
    strip a bs R = [] := by
  unfold strip
  refine List.filter_eq_nil_iff.mpr ?_
  intro r hr
  simp [h r hr]

theorem rec_scan_closed (a : Article) (now : ℤ) :
    ∀ (P : List (Business × ℚ)) (db : List Recommendation) (c : ℕ),
      P.Pairwise (fun p q => p.1.id ≠ q.1.id) →
      (rec_scan a now true P db c).1 =
        strip a (app_businesses a P) db ++ rcat a now P := by
  intro P
  induction P with
  | nil =>
    intro db c _
    simp [rec_scan, app_businesses, rcat, strip, pair_pred]
  | cons p rest ih =>
    intro db c hpw
    rw [List.pairwise_cons] at hpw
    obtain ⟨hp, hrest⟩ := hpw
    rw [show rec_scan a now true (p :: rest) db c =
        rec_scan a now true rest
          ((RecommendationGenerator.generate db a p.1 p.2 now).1 ++
            (RecommendationGenerator.generate db a p.1 p.2 now).2)
          (c + (RecommendationGenerator.generate db a p.1 p.2 now).2.length)
        from rfl]
    cases happ : applicable_business a p.1 with
    | false =>
      rw [generate_not_app db a p.1 p.2 now happ]
      rw [ih _ _ hrest, app_businesses_cons]
      simp [happ, rcat, gen_recs_not_app a now p happ]
    | true =>
      have h2 : (RecommendationGenerator.generate db a p.1 p.2 now).2 =
          gen_recs a now p := generate_snd_db db a p.1 p.2 now
      rw [generate_fst_app db a p.1 p.2 now happ, h2, ih _ _ hrest]
      have hgen : strip a (app_businesses a rest) (gen_recs a now p) =
          gen_recs a now p := by
        refine strip_of_no_pair _ _ _ ?_
        intro r hr
        have hid := generate_recs_ids [] a p.1 p.2 now r hr
        unfold pair_pred
        rw [List.any_eq_false]
        intro b hb
        simp only [app_businesses, List.mem_map] at hb
        obtain ⟨q, hq, hq1⟩ := hb
        have hqr : q ∈ rest := List.mem_of_mem_filter hq
        have hne : p.1.id ≠ q.1.id := hp q hqr
        subst hq1
        simp [hid.1, hne]
      rw [strip_append, hgen, app_businesses_cons, if_pos happ, strip_cons]
      rw [show rcat a now (p :: rest) = gen_recs a now p ++ rcat a now rest
        from rfl]
      simp [List.append_assoc]

theorem rcat_all_pair (a : Article) (now : ℤ) (P : List (Business × ℚ)) :
    ∀ r ∈ rcat a now P, pair_pred a (app_businesses a P) r = true := by
  intro r hr
  rw [mem_rcat] at hr
  obtain ⟨p, hpP, hrp⟩ := hr
  cases happ : applicable_business a p.1 with
  | false =>
    rw [gen_recs_not_app a now p happ] at hrp
    exact absurd hrp (List.not_mem_nil r)
  | true =>
    have hid := generate_recs_ids [] a p.1 p.2 now r hrp
    unfold pair_pred
    rw [List.any_eq_true]
    refine ⟨p.1, ?_, ?_⟩
    · simp only [app_businesses, List.mem_map]
      exact ⟨p, List.mem_filter.mpr ⟨hpP, happ⟩, rfl⟩
    · simp [hid.1, hid.2]

/-- Running the step-5 loop on its own output table changes nothing:
the rows to delete were already deleted and the fresh rows are
regenerated identically. -/
theorem rec_scan_idem (a : Article) (now : ℤ) (P : List (Business × ℚ))
    (db : List Recommendation) (c c' : ℕ)
    (hpw : P.Pairwise (fun p q => p.1.id ≠ q.1.id)) :
    (rec_scan a now true P (rec_scan a now true P db c).1 c').1 =
      (rec_scan a now true P db c).1 := by
  rw [rec_scan_closed a now P db c hpw, rec_scan_closed a now P _ c' hpw]
  rw [strip_append, strip_idem,
    strip_of_all_pair a (app_businesses a P) (rcat a now P)
      (rcat_all_pair a now P)]
  simp

/-- The created-count of the step-5 loop does not depend on the stored
table. -/
theorem rec_scan_count_db (a : Article) (now : ℤ) :
    ∀ (P : List (Business × ℚ)) (db db' : List Recommendation) (c : ℕ),
      (rec_scan a now true P db c).2 = (rec_scan a now true P db' c).2 := by
  intro P
  induction P with
  | nil => intro db db' c; rfl
  | cons p rest ih =>
    intro db db' c
    rw [show rec_scan a now true (p :: rest) db c =
        rec_scan a now true rest
          ((RecommendationGenerator.generate db a p.1 p.2 now).1 ++
            (RecommendationGenerator.generate db a p.1 p.2 now).2)
          (c + (RecommendationGenerator.generate db a p.1 p.2 now).2.length)
        from rfl]
    rw [show rec_scan a now true (p :: rest) db' c =
        rec_scan a now true rest
          ((RecommendationGenerator.generate db' a p.1 p.2 now).1 ++
            (RecommendationGenerator.generate db' a p.1 p.2 now).2)
          (c + (RecommendationGenerator.generate db' a p.1 p.2 now).2.length)
        from rfl]
    rw [generate_snd_db db a p.1 p.2 now, generate_snd_db db' a p.1 p.2 now]
    exact ih _ _ _

/-- The step-4 loop visits each business at most once, so when the
businesses have pairwise distinct ids so do the matched pairs. -/
theorem pure_match_scan_pairwise (g : Article → Business → ℚ)
    (a : Article) :
    ∀ (bs : List Business) (m : ℚ) (acc : List (Business × ℚ)),
      acc.Pairwise (fun p q => p.1.id ≠ q.1.id) →
      (∀ p ∈ acc, ∀ b ∈ bs, p.1.id ≠ b.id) →
      bs.Pairwise (fun b b' => b.id ≠ b'.id) →
      ((pure_match_scan g a bs m acc).2).Pairwise
        (fun p q => p.1.id ≠ q.1.id) := by
  intro bs
  induction bs with
  | nil =>
    intro m acc hacc _ _
    rw [show (pure_match_scan g a [] m acc).2 = acc.reverse from rfl]
    exact List.pairwise_reverse.mpr (hacc.imp (fun h => Ne.symm h))
  | cons b rest ih =>
    intro m acc hacc hcross hbs
    rw [List.pairwise_cons] at hbs
    obtain ⟨hb, hrest⟩ := hbs
    have hcross' : ∀ p ∈ acc, ∀ x ∈ rest, p.1.id ≠ x.id := by
      intro p hp x hx
      exact hcross p hp x (List.mem_cons_of_mem b hx)
    by_cases h1 : b.is_active = false
    · rw [show pure_match_scan g a (b :: rest) m acc =
          if b.is_active = false then pure_match_scan g a rest m acc
          else if GeographicMatcher.is_relevant a b = false then
            pure_match_scan g a rest m acc
          else
            pure_match_scan g a rest
              (if m < g a b then g a b else m)
              (if 2/5 < g a b then (b, g a b) :: acc else acc) from rfl,
        if_pos h1]
      exact ih m acc hacc hcross' hrest
    · by_cases h2 : GeographicMatcher.is_relevant a b = false
      · rw [show pure_match_scan g a (b :: rest) m acc =
            if b.is_active = false then pure_match_scan g a rest m acc
            else if GeographicMatcher.is_relevant a b = false then
              pure_match_scan g a rest m acc
            else
              pure_match_scan g a rest
                (if m < g a b then g a b else m)
                (if 2/5 < g a b then (b, g a b) :: acc else acc) from rfl,
          if_neg h1, if_pos h2]
        exact ih m acc hacc hcross' hrest
      · rw [show pure_match_scan g a (b :: rest) m acc =
            if b.is_active = false then pure_match_scan g a rest m acc
            else if GeographicMatcher.is_relevant a b = false then
              pure_match_scan g a rest m acc
            else
              pure_match_scan g a rest
                (if m < g a b then g a b else m)
                (if 2/5 < g a b then (b, g a b) :: acc else acc) from rfl,
          if_neg h1, if_neg h2]
        by_cases h3 : 2/5 < g a b
        · rw [if_pos h3]
          refine ih _ _ (List.pairwise_cons.mpr ⟨?_, hacc⟩) ?_ hrest
          · intro p hp
            exact Ne.symm (hcross p hp b (List.mem_cons_self b rest))
          · intro p hp x hx
            rcases List.mem_cons.mp hp with hpb | hpa
            · rw [hpb]
              exact hb x hx
            · exact hcross p hpa x (List.mem_cons_of_mem b hx)
        · rw [if_neg h3]
          exact ih _ _ hacc hcross' hrest

/-! ### Stability of extraction from the second run onward

A first run changes the broadcastability fields the PreFilter reads, so
a second run can differ from the first (the C2 counterexample).  But the
second extraction output is a fixed point: every field the stages read
is already its re-computed value. -/

/-- Extracting from a relevance-score update of an extraction output
just re-extracts and re-applies the score. -/
theorem after_extraction_brs_update (R : String → String → Bool)
    (H : String → String → Except Unit Bool) (tax : BroadcastTaxonomy)
    (tks : List BusinessTypeKeyword) (f : Features)
    (lf : Option LlmFeatures) (bs : List Business) (z : Article) (q : ℚ) :
    article_after_extraction (Env.pure_env R H tax tks f lf) bs
        ({ article_after_extraction (Env.pure_env R H tax tks f lf) bs z f with
          business_relevance_score := q }) f =
      { article_after_extraction (Env.pure_env R H tax tks f lf) bs
          (article_after_extraction (Env.pure_env R H tax tks f lf) bs z f)
          f with
        business_relevance_score := q } :=
  after_extraction_congr R H tax tks f lf bs
    ({ article_after_extraction (Env.pure_env R H tax tks f lf) bs z f with
      business_relevance_score := q })
    (article_after_extraction (Env.pure_env R H tax tks f lf) bs z f)
    rfl rfl rfl rfl rfl rfl rfl rfl rfl rfl rfl rfl

/-- The third extraction equals the second: a second extraction output
already carries the category, subcategory and broadcastability values
that re-extraction computes. -/
theorem after_extraction_second_fixed (R : String → String → Bool)
    (H : String → String → Except Unit Bool) (tax : BroadcastTaxonomy)
    (tks : List BusinessTypeKeyword) (f : Features)
    (lf : Option LlmFeatures) (bs : List Business) (z : Article) :
    article_after_extraction (Env.pure_env R H tax tks f lf) bs
        (article_after_extraction (Env.pure_env R H tax tks f lf) bs
          (article_after_extraction (Env.pure_env R H tax tks f lf) bs z f)
          f) f =
      article_after_extraction (Env.pure_env R H tax tks f lf) bs
        (article_after_extraction (Env.pure_env R H tax tks f lf) bs z f)
        f := by
  have him1 := after_extraction_immutables R H tax tks f lf bs z
  have him2 := after_extraction_immutables R H tax tks f lf bs
    (article_after_extraction (Env.pure_env R H tax tks f lf) bs z f)
  have hcat1 := after_extraction_category R H tax tks f lf bs z
  have hcat2 := after_extraction_category R H tax tks f lf bs
    (article_after_extraction (Env.pure_env R H tax tks f lf) bs z f)
  have hpr1 := pre_broadcast_reads R H tax tks f lf bs z
  have hpr2 := pre_broadcast_reads R H tax tks f lf bs
    (article_after_extraction (Env.pure_env R H tax tks f lf) bs z f)
  have hbf1 := after_extraction_broadcast_fields R H tax tks f lf bs z
  have hbf2 := after_extraction_broadcast_fields R H tax tks f lf bs
    (article_after_extraction (Env.pure_env R H tax tks f lf) bs z f)
  have hbc : BroadcastabilityCalculator.calculate tax H
      (pre_broadcast_article (Env.pure_env R H tax tks f lf) bs
        (article_after_extraction (Env.pure_env R H tax tks f lf) bs z f)
        f) =
      BroadcastabilityCalculator.calculate tax H
        (pre_broadcast_article (Env.pure_env R H tax tks f lf) bs z f) :=
    calculate_congr tax H _ _
      (by rw [hpr2.1, hpr1.1, him1.2.1])
      (by rw [hpr2.2.1, hpr1.2.1, him1.2.2.1])
      (by rw [hpr2.2.2.1, hpr1.2.2.1])
      (by rw [hpr2.2.2.2, hpr1.2.2.2])
  have hcat : (article_after_extraction (Env.pure_env R H tax tks f lf) bs
      (article_after_extraction (Env.pure_env R H tax tks f lf) bs z f)
      f).category =
      (article_after_extraction (Env.pure_env R H tax tks f lf) bs z
        f).category := by
    rw [hcat2.1, hcat1.1]
    by_cases hc : f.event_type.getD "" = ""
    · simp [hc]
    · simp [hc]
  have hsub : (article_after_extraction (Env.pure_env R H tax tks f lf) bs
      (article_after_extraction (Env.pure_env R H tax tks f lf) bs z f)
      f).subcategory =
      (article_after_extraction (Env.pure_env R H tax tks f lf) bs z
        f).subcategory := by
    rw [hcat2.2, hcat1.2]
    by_cases hc : f.event_type.getD "" = ""
    · simp [hc]
    · simp [hc]
  have hib : (article_after_extraction (Env.pure_env R H tax tks f lf) bs
      (article_after_extraction (Env.pure_env R H tax tks f lf) bs z f)
      f).is_broadcastable =
      (article_after_extraction (Env.pure_env R H tax tks f lf) bs z
        f).is_broadcastable := by
    rw [hbf2.1, hbf1.1, hbc]
  have hbsc : (article_after_extraction (Env.pure_env R H tax tks f lf) bs
      (article_after_extraction (Env.pure_env R H tax tks f lf) bs z f)
      f).broadcastability_score =
      (article_after_extraction (Env.pure_env R H tax tks f lf) bs z
        f).broadcastability_score := by
    rw [hbf2.2, hbf1.2, hbc]
  have h := after_extraction_congr R H tax tks f lf bs
    (article_after_extraction (Env.pure_env R H tax tks f lf) bs
      (article_after_extraction (Env.pure_env R H tax tks f lf) bs z f) f)
    (article_after_extraction (Env.pure_env R H tax tks f lf) bs z f)
    him2.1 him2.2.1 him2.2.2.1 him2.2.2.2.1 him2.2.2.2.2.1
    him2.2.2.2.2.2.1 him2.2.2.2.2.2.2.1 him2.2.2.2.2.2.2.2 hcat hsub hib
    hbsc
  rw [h]

/-- Extraction fixes every relevance-score update of one of its fixed
points. -/
theorem after_extraction_fixes_update_of (R : String → String → Bool)
    (H : String → String → Except Unit Bool) (tax : BroadcastTaxonomy)
    (tks : List BusinessTypeKeyword) (f : Features)
    (lf : Option LlmFeatures) (bs : List Business) (t : Article)
    (ht : article_after_extraction (Env.pure_env R H tax tks f lf) bs t f
      = t) :
    ∀ p : ℚ,
      article_after_extraction (Env.pure_env R H tax tks f lf) bs
          ({ t with business_relevance_score := p }) f =
        { t with business_relevance_score := p } := by
  intro p
  have h := after_extraction_congr R H tax tks f lf bs
    ({ t with business_relevance_score := p }) t
    rfl rfl rfl rfl rfl rfl rfl rfl rfl rfl rfl rfl
  rw [h, ht]

/-- On any world whose article is already an extraction output (with an
arbitrary stored relevance score), processing is idempotent: a further
run reproduces the same article, the same stored recommendations and the
same result dictionary. -/
theorem process_pure_stable (R : String → String → Bool)
    (H : String → String → Except Unit Bool) (tax : BroadcastTaxonomy)
    (tks : List BusinessTypeKeyword) (f : Features)
    (lf : Option LlmFeatures) (now : ℤ) (w : World) (z : Article) (q : ℚ)
    (hart : w.article =
      { article_after_extraction (Env.pure_env R H tax tks f lf)
          w.businesses z f with business_relevance_score := q })
    (hnodup : (w.businesses.map (fun b => b.id)).Nodup) :
    MLOrchestrator.process_article (Env.pure_env R H tax tks f lf) now true
        ((MLOrchestrator.process_article (Env.pure_env R H tax tks f lf)
          now true w).1) =
      MLOrchestrator.process_article (Env.pure_env R H tax tks f lf) now
        true w := by
  have hAA : article_after_extraction (Env.pure_env R H tax tks f lf)
      w.businesses (article_after_extraction
        (Env.pure_env R H tax tks f lf) w.businesses w.article f) f =
      article_after_extraction (Env.pure_env R H tax tks f lf) w.businesses
        w.article f := by
    rw [hart, after_extraction_brs_update R H tax tks f lf w.businesses]
    exact after_extraction_fixes_update_of R H tax tks f lf w.businesses _
      (after_extraction_second_fixed R H tax tks f lf w.businesses z) q
  by_cases hs : (article_after_extraction (Env.pure_env R H tax tks f lf)
      w.businesses w.article f).business_suitability_score < 3/10
  · have hw1 := process_pure_low R H tax tks f lf now w hs
    have hs2 : (article_after_extraction (Env.pure_env R H tax tks f lf)
        ({ w with article := (article_after_extraction
          (Env.pure_env R H tax tks f lf) w.businesses w.article f) } :
            World).businesses
        ({ w with article := (article_after_extraction
          (Env.pure_env R H tax tks f lf) w.businesses w.article f) } :
            World).article
        f).business_suitability_score < 3/10 := by
      dsimp only
      rw [hAA]
      exact hs
    have hw2 := process_pure_low R H tax tks f lf now
      ({ w with article := (article_after_extraction
        (Env.pure_env R H tax tks f lf) w.businesses w.article f) }) hs2
    rw [hw1]
    dsimp only
    rw [hw2]
    dsimp only
    rw [hAA]
  · have hw1 := process_pure_high R H tax tks f lf now w hs
    have hAfin : article_after_extraction (Env.pure_env R H tax tks f lf)
        w.businesses
        ({ article_after_extraction (Env.pure_env R H tax tks f lf)
            w.businesses w.article f with
          business_relevance_score := (pure_match_scan
            (fun x y => BusinessMatcher.calculate_relevance tks x y)
            (article_after_extraction (Env.pure_env R H tax tks f lf)
              w.businesses w.article f) w.businesses 0 []).1 }) f =
        { article_after_extraction (Env.pure_env R H tax tks f lf)
            w.businesses w.article f with
          business_relevance_score := (pure_match_scan
            (fun x y => BusinessMatcher.calculate_relevance tks x y)
            (article_after_extraction (Env.pure_env R H tax tks f lf)
              w.businesses w.article f) w.businesses 0 []).1 } :=
      after_extraction_fixes_update_of R H tax tks f lf w.businesses _ hAA _
    have hpw : ((pure_match_scan
        (fun x y => BusinessMatcher.calculate_relevance tks x y)
        (article_after_extraction (Env.pure_env R H tax tks f lf)
          w.businesses w.article f) w.businesses 0 []).2).Pairwise
          (fun p q => p.1.id ≠ q.1.id) :=
      pure_match_scan_pairwise _ _ w.businesses 0 [] List.Pairwise.nil
        (by intro p hp; exact absurd hp (List.not_mem_nil p))
        (List.pairwise_map.mp hnodup)
    have hAfin' := hAfin
    try dsimp only at hAfin'
    have hs2 : ¬ (article_after_extraction (Env.pure_env R H tax tks f lf)
        ({ w with
          article := { article_after_extraction
              (Env.pure_env R H tax tks f lf) w.businesses w.article f with
            business_relevance_score := (pure_match_scan
              (fun x y => BusinessMatcher.calculate_relevance tks x y)
              (article_after_extraction (Env.pure_env R H tax tks f lf)
                w.businesses w.article f) w.businesses 0 []).1 }
          recs := (rec_scan
            { article_after_extraction (Env.pure_env R H tax tks f lf)
                w.businesses w.article f with
              business_relevance_score := (pure_match_scan
                (fun x y => BusinessMatcher.calculate_relevance tks x y)
                (article_after_extraction (Env.pure_env R H tax tks f lf)
                  w.businesses w.article f) w.businesses 0 []).1 }
            now true
            (pure_match_scan
              (fun x y => BusinessMatcher.calculate_relevance tks x y)
              (article_after_extraction (Env.pure_env R H tax tks f lf)
                w.businesses w.article f) w.businesses 0 []).2
            w.recs 0).1 } : World).businesses
        ({ w with
          article := { article_after_extraction
              (Env.pure_env R H tax tks f lf) w.businesses w.article f with
            business_relevance_score := (pure_match_scan
              (fun x y => BusinessMatcher.calculate_relevance tks x y)
              (article_after_extraction (Env.pure_env R H tax tks f lf)
                w.businesses w.article f) w.businesses 0 []).1 }
          recs := (rec_scan
            { article_after_extraction (Env.pure_env R H tax tks f lf)
                w.businesses w.article f with
              business_relevance_score := (pure_match_scan
                (fun x y => BusinessMatcher.calculate_relevance tks x y)
                (article_after_extraction (Env.pure_env R H tax tks f lf)
                  w.businesses w.article f) w.businesses 0 []).1 }
            now true
            (pure_match_scan
              (fun x y => BusinessMatcher.calculate_relevance tks x y)
              (article_after_extraction (Env.pure_env R H tax tks f lf)
                w.businesses w.article f) w.businesses 0 []).2
            w.recs 0).1 } : World).article
        f).business_suitability_score < 3/10 := by
      dsimp only
      rw [hAfin']
      dsimp only
      exact hs
    have hw2 := process_pure_high R H tax tks f lf now
      ({ w with
        article := { article_after_extraction
            (Env.pure_env R H tax tks f lf) w.businesses w.article f with
          business_relevance_score := (pure_match_scan
            (fun x y => BusinessMatcher.calculate_relevance tks x y)
            (article_after_extraction (Env.pure_env R H tax tks f lf)
              w.businesses w.article f) w.businesses 0 []).1 }
        recs := (rec_scan
          { article_after_extraction (Env.pure_env R H tax tks f lf)
              w.businesses w.article f with
            business_relevance_score := (pure_match_scan
              (fun x y => BusinessMatcher.calculate_relevance tks x y)
              (article_after_extraction (Env.pure_env R H tax tks f lf)
                w.businesses w.article f) w.businesses 0 []).1 }
          now true
          (pure_match_scan
            (fun x y => BusinessMatcher.calculate_relevance tks x y)
            (article_after_extraction (Env.pure_env R H tax tks f lf)
              w.businesses w.article f) w.businesses 0 []).2
          w.recs 0).1 }) hs2
    have hpms := pure_match_scan_brs_update tks
      (article_after_extraction (Env.pure_env R H tax tks f lf)
        w.businesses w.article f)
      ((pure_match_scan
        (fun x y => BusinessMatcher.calculate_relevance tks x y)
        (article_after_extraction (Env.pure_env R H tax tks f lf)
          w.businesses w.article f) w.businesses 0 []).1)
      w.businesses 0 []
    try dsimp only at hpms
    have hidem := rec_scan_idem
      ({ article_after_extraction (Env.pure_env R H tax tks f lf)
          w.businesses w.article f with
        business_relevance_score := (pure_match_scan
          (fun x y => BusinessMatcher.calculate_relevance tks x y)
          (article_after_extraction (Env.pure_env R H tax tks f lf)
            w.businesses w.article f) w.businesses 0 []).1 })
      now
      ((pure_match_scan
        (fun x y => BusinessMatcher.calculate_relevance tks x y)
        (article_after_extraction (Env.pure_env R H tax tks f lf)
          w.businesses w.article f) w.businesses 0 []).2)
      w.recs 0 0 hpw
    try dsimp only at hidem
    have hcnt := rec_scan_count_db
      ({ article_after_extraction (Env.pure_env R H tax tks f lf)
          w.businesses w.article f with
        business_relevance_score := (pure_match_scan
          (fun x y => BusinessMatcher.calculate_relevance tks x y)
          (article_after_extraction (Env.pure_env R H tax tks f lf)
            w.businesses w.article f) w.businesses 0 []).1 })
      now
      ((pure_match_scan
        (fun x y => BusinessMatcher.calculate_relevance tks x y)
        (article_after_extraction (Env.pure_env R H tax tks f lf)
          w.businesses w.article f) w.businesses 0 []).2)
      ((rec_scan
        ({ article_after_extraction (Env.pure_env R H tax tks f lf)
            w.businesses w.article f with
          business_relevance_score := (pure_match_scan
            (fun x y => BusinessMatcher.calculate_relevance tks x y)
            (article_after_extraction (Env.pure_env R H tax tks f lf)
              w.businesses w.article f) w.businesses 0 []).1 })
        now true
        ((pure_match_scan
          (fun x y => BusinessMatcher.calculate_relevance tks x y)
          (article_after_extraction (Env.pure_env R H tax tks f lf)
            w.businesses w.article f) w.businesses 0 []).2)
        w.recs 0).1)
      w.recs 0
    try dsimp only at hcnt
    rw [hw1]
    dsimp only
    rw [hw2]
    dsimp only
    rw [hAfin']
    dsimp only
    rw [hpms]
    rw [hidem]
    rw [hcnt]

/-- Claim C2 (amended).  Process is not idempotent from the first run
(see the counterexample: the PreFilter reads broadcastability fields the
run itself writes), but it is from the second run onward: with unchanged
inputs (same extracted features, businesses, taxonomies, keywords and
clock, and businesses with pairwise distinct ids), running Process a
third time starting from the state the second run left reproduces the
second run exactly — the same article fields (including
business_suitability_score), the same stored recommendations (not
doubled), and the same result dictionary. -/
theorem process_idempotent_from_second_run (R : String → String → Bool)
    (H : String → String → Except Unit Bool) (tax : BroadcastTaxonomy)
    (tks : List BusinessTypeKeyword) (f : Features)
    (lf : Option LlmFeatures) (now : ℤ) (w0 : World)
    (hnodup : (w0.businesses.map (fun b => b.id)).Nodup) :
    MLOrchestrator.process_article (Env.pure_env R H tax tks f lf) now true
        ((MLOrchestrator.process_article (Env.pure_env R H tax tks f lf)
          now true
          ((MLOrchestrator.process_article (Env.pure_env R H tax tks f lf)
            now true w0).1)).1) =
      MLOrchestrator.process_article (Env.pure_env R H tax tks f lf) now
        true
        ((MLOrchestrator.process_article (Env.pure_env R H tax tks f lf)
          now true w0).1) := by
  by_cases hs : (article_after_extraction (Env.pure_env R H tax tks f lf)
      w0.businesses w0.article f).business_suitability_score < 3/10
  · have hw1 := process_pure_low R H tax tks f lf now w0 hs
    refine process_pure_stable R H tax tks f lf now _ w0.article
      ((article_after_extraction (Env.pure_env R H tax tks f lf)
        w0.businesses w0.article f).business_relevance_score) ?_ ?_
    · rw [hw1]
    · rw [hw1]
      dsimp only
      exact hnodup
  · have hw1 := process_pure_high R H tax tks f lf now w0 hs
    refine process_pure_stable R H tax tks f lf now _ w0.article
      ((pure_match_scan
        (fun x y => BusinessMatcher.calculate_relevance tks x y)
        (article_after_extraction (Env.pure_env R H tax tks f lf)
          w0.businesses w0.article f) w0.businesses 0 []).1) ?_ ?_
    · rw [hw1]
    · rw [hw1]
      dsimp only
      exact hnodup

/-- The amended C2 theorem at a concrete input: the counterexample's own
scenario (whose first and second runs differ) has identical second and
third runs. -/
theorem process_idempotent_from_second_run_witness :
    ((c2_world.businesses.map (fun b => b.id)).Nodup)
    ∧ MLOrchestrator.process_article c2_env 0 true
        ((MLOrchestrator.process_article c2_env 0 true
          ((MLOrchestrator.process_article c2_env 0 true c2_world).1)).1) =
      MLOrchestrator.process_article c2_env 0 true
        ((MLOrchestrator.process_article c2_env 0 true c2_world).1) :=
  ⟨by decide,
    process_idempotent_from_second_run (fun _ _ => false)
      (fun _ _ => Except.ok false) c2_tax []
      { event_type := some "sports_match", scale := some "massive",
        attendance := some 60000, event_country := some "Brasil",
        colombian_involvement := false, keywords := ["k"] }
      none 0 c2_world (by decide)⟩

end NavigatePipeline
